import Mathlib

/-!
Shallow embedding of `development/nautobot_config.py` from the
cookiecutter-nautobot-app template.

The Python module reads environment variables at import time and populates
Django/Nautobot settings.  We model the process environment as a partial map
from variable names to strings (`none` = variable unset) and translate each
settings derivation into a Lean function on that map.  The cookiecutter
template variable `{{ cookiecutter.app_name }}` is modelled as an explicit
`app_name : String` parameter.  The three mutable configuration targets that
the conditional feature blocks write into (`PLUGINS`, `PLUGINS_CONFIG`,
`LOGGING["loggers"]`) are modelled as an explicit `Config` record threaded
through one state-transformer per feature block, in source order.
-/

namespace NautobotConfig

/-!
### Python string primitives

The settings module only ever calls `str.replace` with single-character
arguments and `str.split` with a single-character separator, plus
`str.lower()`, `str.strip()` and the Jinja `upper` filter.  Lean's built-in
`String.splitOn`, `String.trim`, … are not kernel-reducible, so we give
structurally recursive definitions over `String.data` with exactly Python's
semantics (in particular Python's `split(sep)` keeps empty pieces).
-/

/-- Python `s.replace(a, b)` for one-character `a`, `b`. -/
def str_replace (s : String) (a b : Char) : String :=
  ⟨s.data.map (fun c => if c = a then b else c)⟩

/-- Helper for `str_split`: split a character list on a separator character,
keeping empty pieces, as Python `str.split(sep)` does. -/
def splitCharList (sep : Char) : List Char → List (List Char)
  | [] => [[]]
  | c :: cs =>
    match splitCharList sep cs with
    | [] => if c = sep then [[], []] else [[c]]
    | h :: t => if c = sep then [] :: h :: t else (c :: h) :: t

/-- Python `s.split(sep)` for a one-character separator `sep`: splits at every
occurrence and keeps empty pieces (`"a,,b".split(",") == ["a","","b"]`,
`"".split(",") == [""]`). -/
def str_split (s : String) (sep : Char) : List String :=
  (splitCharList sep s.data).map (fun l => ⟨l⟩)

/-- Python `s.lower()` (ASCII letters, which is all the module compares). -/
def str_lower (s : String) : String :=
  ⟨s.data.map Char.toLower⟩

/-- The Jinja `upper` filter applied to `{{ cookiecutter.app_name }}`. -/
def str_upper (s : String) : String :=
  ⟨s.data.map Char.toUpper⟩

/-- Python `s.strip()`: remove leading and trailing whitespace. -/
def str_strip (s : String) : String :=
  ⟨((s.data.dropWhile Char.isWhitespace).reverse.dropWhile Char.isWhitespace).reverse⟩

/-- The process environment: variable name to value, `none` when unset. -/
abbrev Env := String → Option String

/-- Model of Python `os.getenv(name, dflt)` with a string default. -/
def getenv (env : Env) (name dflt : String) : String :=
  (env name).getD dflt

/-- Python truthiness of the result of `os.getenv(name, None)` (or of a plain
string): `None` and the empty string are falsy, every other string is truthy. -/
def optTruthy : Option String → Bool
  | none => false
  | some s => s ≠ ""

/-- Modelled from the spec: `is_truthy` is imported from
`nautobot.core.settings_funcs`, which is not part of this repository's source
tree.  The spec describes it as "a truthy-string interpreter recognizing at
minimum `{"true","yes","1"}` (case-insensitive) as true, everything else
(including empty/absent) as false".  The argument is the result of
`os.getenv(name, False)`: `none` stands for the unset case, where Python hands
the default `False` straight through. -/
def is_truthy : Option String → Bool
  | none => false
  | some v =>
    let l := str_lower v
    l = "true" || l = "yes" || l = "1"

/-- Build a concrete environment from an association list (used to evaluate
the model on explicit inputs). -/
def envOf (l : List (String × String)) : Env :=
  fun k => (l.find? (fun p => p.1 == k)).map (fun p => p.2)

/-! ### Allowed hosts (line 36) -/

/-- `ALLOWED_HOSTS = os.getenv("NAUTOBOT_ALLOWED_HOSTS", "").replace(",", " ").split(" ")`.
Python's `str.split(" ")` with an explicit separator keeps empty pieces, as
does Lean's `String.splitOn`. -/
def ALLOWED_HOSTS (env : Env) : List String :=
  str_split (str_replace (getenv env "NAUTOBOT_ALLOWED_HOSTS" "") ',' ' ') ' '

/-! ### CIDR allowlist (lines 9, 43-52) -/

/-- `DJANGO_ALLOW_CIDR_ENABLED = is_truthy(os.getenv("NAUTOBOT_DJANGO_ALLOW_CIDR_ENABLED", False))`. -/
def DJANGO_ALLOW_CIDR_ENABLED (env : Env) : Bool :=
  is_truthy (env "NAUTOBOT_DJANGO_ALLOW_CIDR_ENABLED")

/-- Result of the CIDR block: the final `ALLOWED_CIDR_NETS` list together with
whether the "No CIDR networks defined" warning was printed. -/
structure CidrResult where
  ALLOWED_CIDR_NETS : List String
  warned : Bool
deriving DecidableEq, Repr

/-- Lines 43-52: `ALLOWED_CIDR_NETS = []`; if the feature is enabled, a set and
non-empty `NAUTOBOT_ALLOWED_CIDR_NETS` is split on commas, otherwise a warning
is printed and the list stays empty. -/
def cidrBlock (env : Env) : CidrResult :=
  if DJANGO_ALLOW_CIDR_ENABLED env then
    if optTruthy (env "NAUTOBOT_ALLOWED_CIDR_NETS") then
      ⟨str_split (getenv env "NAUTOBOT_ALLOWED_CIDR_NETS" "") ',', false⟩
    else
      ⟨[], true⟩
  else
    ⟨[], false⟩

/-! ### Database (lines 61-82) -/

/-- `nautobot_db_engine = os.getenv("NAUTOBOT_DB_ENGINE", "django.db.backends.postgresql")`. -/
def nautobot_db_engine (env : Env) : String :=
  getenv env "NAUTOBOT_DB_ENGINE" "django.db.backends.postgresql"

/-- The `default_db_settings` lookup table (lines 62-69), restricted to the
`NAUTOBOT_DB_PORT` field it carries; `none` models the `KeyError` raised when
the configured engine is not one of the two table keys. -/
def default_db_settings (engine : String) : Option String :=
  if engine = "django.db.backends.postgresql" then some "5432"
  else if engine = "django.db.backends.mysql" then some "3306"
  else none

/-- The `"PORT"` entry of `DATABASES["default"]` (lines 76-78):
`os.getenv("NAUTOBOT_DB_PORT", default_db_settings[nautobot_db_engine]["NAUTOBOT_DB_PORT"])`.
Python evaluates the default argument eagerly, so an unrecognized engine raises
`KeyError` (modelled by `none`) even when `NAUTOBOT_DB_PORT` is set. -/
def db_port (env : Env) : Option String :=
  (default_db_settings (nautobot_db_engine env)).map
    (fun dflt => getenv env "NAUTOBOT_DB_PORT" dflt)

/-! ### Debug flag and log level (lines 17, 125) -/

/-- `DEBUG = is_truthy(os.getenv("NAUTOBOT_DEBUG", False))`. -/
def DEBUG (env : Env) : Bool :=
  is_truthy (env "NAUTOBOT_DEBUG")

/-- `LOG_LEVEL = "DEBUG" if DEBUG else "INFO"`. -/
def LOG_LEVEL (env : Env) : String :=
  if DEBUG env then "DEBUG" else "INFO"

/-! ### LDAP user search (lines 279-338) -/

/-- `DJANGO_AUTH_LDAP_ENABLED = is_truthy(os.getenv("NAUTOBOT_DJANGO_AUTH_LDAP_ENABLED", False))`. -/
def DJANGO_AUTH_LDAP_ENABLED (env : Env) : Bool :=
  is_truthy (env "NAUTOBOT_DJANGO_AUTH_LDAP_ENABLED")

/-- `AUTH_LDAP_SERVER_URI = os.getenv("NAUTOBOT_AUTH_LDAP_SERVER_URI", None)`. -/
def AUTH_LDAP_SERVER_URI (env : Env) : Option String :=
  env "NAUTOBOT_AUTH_LDAP_SERVER_URI"

/-- One `LDAPSearch(base_dn, scope, filterstr)` value as constructed on
line 335. -/
structure LDAPSearch where
  base_dn : String
  scope : Nat
  filterstr : String
deriving DecidableEq, Repr

/-- `ldap.SCOPE_SUBTREE` from the python-ldap library. -/
def SCOPE_SUBTREE : Nat := 2

/-- Lines 328-338.  Outer `none`: the LDAP block did not run (flag unset or no
server URI), so `AUTH_LDAP_USER_SEARCH` is never assigned.  `some none`: the
block ran but `NAUTOBOT_AUTH_LDAP_USER_SEARCH_DN` was unset/empty, so
`AUTH_LDAP_USER_SEARCH = None`.  `some (some l)`: `LDAPSearchUnion(*l)` where
`l` has one `LDAPSearch` per `";"`-separated piece of the variable, each piece
stripped of surrounding whitespace. -/
def AUTH_LDAP_USER_SEARCH (env : Env) : Option (Option (List LDAPSearch)) :=
  if DJANGO_AUTH_LDAP_ENABLED env && optTruthy (AUTH_LDAP_SERVER_URI env) then
    some
      (if optTruthy (env "NAUTOBOT_AUTH_LDAP_USER_SEARCH_DN") then
        some
          ((str_split (getenv env "NAUTOBOT_AUTH_LDAP_USER_SEARCH_DN" "") ';').map
            (fun sdn => ⟨str_strip sdn, SCOPE_SUBTREE, "(sAMAccountName=%(user)s)"⟩))
      else none)
  else none

/-! ### Python `dict` as an association list

Python dictionaries preserve insertion order; we model them as association
lists.  `dictSet` models a single-key `d[k] = v` / `d.update({k: v})`:
overwrite in place when the key is present, append otherwise. -/

/-- Python `k in d`. -/
def memKey {α : Type} (m : List (String × α)) (k : String) : Bool :=
  m.any (fun p => p.1 == k)

/-- Python `d.get(k)` / `d[k]`. -/
def lookupKey {α : Type} (m : List (String × α)) (k : String) : Option α :=
  (m.find? (fun p => p.1 == k)).map (fun p => p.2)

/-- Replace the value stored under `k` (helper for `dictSet`). -/
def replaceKey {α : Type} : List (String × α) → String → α → List (String × α)
  | [], _, _ => []
  | p :: m, k, v => (if p.1 == k then (k, v) else p) :: replaceKey m k v

/-- Python `d[k] = v`: replace the value at `k` in place, or append `(k, v)`
at the end when the key is new (dictionaries preserve insertion order). -/
def dictSet {α : Type} (m : List (String × α)) (k : String) (v : α) : List (String × α) :=
  if memKey m k then replaceKey m k v else m ++ [(k, v)]

/-- Python `d.update(other)`: `d[k] = v` for every entry of `other` in order. -/
def dictUpdate {α : Type} (m other : List (String × α)) : List (String × α) :=
  other.foldl (fun acc p => dictSet acc p.1 p.2) m

/-! ### Values stored in `PLUGINS_CONFIG` and `LOGGING["loggers"]` -/

/-- The nested `"thycotic"` credential dictionary built on lines 459-481 of the
secrets-provider block, one field per `os.getenv` call. -/
structure ThycoticSettings where
  base_url : Option String
  cloud_based : Bool
  tenant : String
  username : String
  password : String
  token : String
  domain : String
  ca_bundle_path : String
deriving DecidableEq, Repr

/-- A value inside one plugin's configuration dictionary: the module stores
strings, booleans, and (only under `"thycotic"`) the nested credential
dictionary. -/
inductive Val where
  | str : String → Val
  | bool : Bool → Val
  | thyc : ThycoticSettings → Val
deriving DecidableEq, Repr

/-- One plugin's configuration dictionary (a value of `PLUGINS_CONFIG`). -/
abbrev Dict := List (String × Val)

/-- One logger's configuration inside `LOGGING["loggers"]`: every logger the
module writes is `{"handlers": [...], "level": ...}`. -/
structure LoggerCfg where
  handlers : List String
  level : String
deriving DecidableEq, Repr

/-- The three shared mutable targets the feature blocks write into:
`PLUGINS`, `PLUGINS_CONFIG` and `LOGGING["loggers"]`. -/
structure Config where
  PLUGINS : List String
  PLUGINS_CONFIG : List (String × Dict)
  loggers : List (String × LoggerCfg)
deriving DecidableEq, Repr

/-- The `"loggers"` table of the `LOGGING` dictionary assigned on
lines 129-161 (the non-test path): `django` and `nautobot`. -/
def baseLoggers (env : Env) : List (String × LoggerCfg) :=
  [("django", ⟨["normal_console"], "INFO"⟩),
   ("nautobot", ⟨[if DEBUG env then "verbose_console" else "normal_console"], LOG_LEVEL env⟩)]

/-- The logger configuration the app block builds on lines 213-218, and the
pattern `{"handlers": ["verbose_console" if DEBUG else "normal_console"], "level": LOG_LEVEL}`. -/
def appLoggerCfg (env : Env) : LoggerCfg :=
  ⟨[if DEBUG env then "verbose_console" else "normal_console"], LOG_LEVEL env⟩

/-! ### The feature blocks (lines 185-486), one state transformer each

Each block is a sequence of guarded writes.  The three recurring shapes —
`if "x" not in PLUGINS: PLUGINS.append("x")`,
`if "x" not in PLUGINS_CONFIG: PLUGINS_CONFIG.update({"x": cfg})` and
`if "x" not in LOGGING.get("loggers"): LOGGING.get("loggers").update(...)` —
are captured once as `ensurePlugin`, `ensurePluginConfig`, `ensureLogger` and
instantiated per block. -/

/-- `if name not in PLUGINS: PLUGINS.append(name)`. -/
def ensurePlugin (name : String) (c : Config) : Config :=
  if !c.PLUGINS.contains name then { c with PLUGINS := c.PLUGINS ++ [name] } else c

/-- `if name not in PLUGINS_CONFIG: PLUGINS_CONFIG.update({name: d})`. -/
def ensurePluginConfig (name : String) (d : Dict) (c : Config) : Config :=
  if !memKey c.PLUGINS_CONFIG name then
    { c with PLUGINS_CONFIG := dictSet c.PLUGINS_CONFIG name d } else c

/-- `if name not in LOGGING.get("loggers"): LOGGING.get("loggers").update({name: cfg})`. -/
def ensureLogger (name : String) (cfg : LoggerCfg) (c : Config) : Config :=
  if !memKey c.loggers name then
    { c with loggers := dictSet c.loggers name cfg } else c

/-- Lines 186-219, the `{{ cookiecutter.app_name }}` block.  `app_name` is the
rendered value of the template variable; the flag variable name is
`NAUTOBOT_{{ cookiecutter.app_name | upper }}_ENABLED`.  In source order: the
guarded `PLUGINS.append`, the guarded `PLUGINS_CONFIG.update`, the guarded
logger update. -/
def appBlock (app_name : String) (env : Env) (c : Config) : Config :=
  if is_truthy (env ("NAUTOBOT_" ++ str_upper app_name ++ "_ENABLED")) then
    ensureLogger app_name (appLoggerCfg env)
      (ensurePluginConfig app_name [] (ensurePlugin app_name c))
  else c

/-- The `PLUGINS.append` of the Data Validation Engine block (lines 230-232).
NOTE: in the source this guard tests membership in `PLUGINS_CONFIG`, not in
`PLUGINS`. -/
def dataValidationAppend (c : Config) : Config :=
  if !memKey c.PLUGINS_CONFIG "nautobot_data_validation_engine" then
    { c with PLUGINS := c.PLUGINS ++ ["nautobot_data_validation_engine"] } else c

/-- Lines 228-241, the Data Validation Engine block. -/
def dataValidationBlock (env : Env) (c : Config) : Config :=
  if is_truthy (env "NAUTOBOT_DATA_VALIDATION_ENGINE_ENABLED") then
    ensurePluginConfig "nautobot_data_validation_engine" [] (dataValidationAppend c)
  else c

/-- The device-onboarding options dictionary of the first block (lines 261-268). -/
def deviceOnboardingCfg1 : Dict :=
  [("default_device_role_color", Val.str "0000FF"),
   ("default_device_role", Val.str "edge-switch"),
   ("skip_device_type_on_update", Val.bool true)]

/-- Lines 250-270, the first Device Onboarding block. -/
def deviceOnboardingBlock1 (env : Env) (c : Config) : Config :=
  if is_truthy (env "NAUTOBOT_DEVICE_ONBOARDING_ENABLED") then
    ensurePluginConfig "nautobot_device_onboarding" deviceOnboardingCfg1
      (ensurePlugin "nautobot_device_onboarding" c)
  else c

/-- The `ldap_logger` dictionary value of lines 295-300. -/
def ldapLoggerCfg (env : Env) : LoggerCfg :=
  ⟨["normal_console"], LOG_LEVEL env⟩

/-- Lines 279-301 restricted to the three shared targets: when LDAP is enabled
and a server URI is set, `LOGGING.get("loggers").update(ldap_logger)` runs
unconditionally (no membership guard). -/
def ldapBlock (env : Env) (c : Config) : Config :=
  if DJANGO_AUTH_LDAP_ENABLED env && optTruthy (AUTH_LDAP_SERVER_URI env) then
    { c with loggers := dictSet c.loggers "django_auth_ldap" (ldapLoggerCfg env) }
  else c

/-- Lines 411-417, the SSoT block. -/
def ssotBlock (env : Env) (c : Config) : Config :=
  if is_truthy (env "NAUTOBOT_SSOT_ENABLED") then
    ensurePluginConfig "nautobot_ssot" [("hide_example_jobs", Val.bool true)]
      (ensurePlugin "nautobot_ssot" c)
  else c

/-- The device-onboarding options dictionary of the second block
(lines 433-440); it adds `skip_manufacturer_on_update`. -/
def deviceOnboardingCfg2 : Dict :=
  [("default_device_role_color", Val.str "0000FF"),
   ("default_device_role", Val.str "edge-switch"),
   ("skip_device_type_on_update", Val.bool true),
   ("skip_manufacturer_on_update", Val.bool true)]

/-- Lines 426-441, the second Device Onboarding block (same flag variable,
different options dictionary). -/
def deviceOnboardingBlock2 (env : Env) (c : Config) : Config :=
  if is_truthy (env "NAUTOBOT_DEVICE_ONBOARDING_ENABLED") then
    ensurePluginConfig "nautobot_device_onboarding" deviceOnboardingCfg2
      (ensurePlugin "nautobot_device_onboarding" c)
  else c

/-- The `thycotic_seetings` dictionary built on lines 459-481 (the misspelled
name is the source's). -/
def thycotic_seetings (env : Env) : Dict :=
  [("thycotic", Val.thyc
    { base_url := env "SECRET_SERVER_BASE_URL"
      cloud_based := is_truthy (some (getenv env "SECRET_SERVER_IS_CLOUD_BASED" "False"))
      tenant := getenv env "SECRET_SERVER_TENANT" ""
      username := getenv env "SECRET_SERVER_USERNAME" ""
      password := getenv env "SECRET_SERVER_PASSWORD" ""
      token := getenv env "SECRET_SERVER_TOKEN" ""
      domain := getenv env "SECRET_SERVER_DOMAIN" ""
      ca_bundle_path := getenv env "REQUESTS_CA_BUNDLE" "" })]

/-- Lines 456-486, the nested-credential write of the Secrets Providers
block.  The guard (line 456) passes when the plugin has no entry in
`PLUGINS_CONFIG` or its entry has no `"thycotic"` key; when it passes, an
existing entry is updated in place (line 484), otherwise a fresh entry is
inserted (line 486). -/
def thycoticStep (env : Env) (c : Config) : Config :=
  if !memKey c.PLUGINS_CONFIG "nautobot_secrets_providers"
      || !memKey ((lookupKey c.PLUGINS_CONFIG "nautobot_secrets_providers").getD []) "thycotic" then
    if memKey c.PLUGINS_CONFIG "nautobot_secrets_providers" then
      let merged := dictUpdate
        ((lookupKey c.PLUGINS_CONFIG "nautobot_secrets_providers").getD [])
        (thycotic_seetings env)
      { c with PLUGINS_CONFIG :=
          dictSet c.PLUGINS_CONFIG "nautobot_secrets_providers" merged }
    else
      { c with PLUGINS_CONFIG :=
          dictUpdate c.PLUGINS_CONFIG [("nautobot_secrets_providers", thycotic_seetings env)] }
  else c

/-- Lines 450-486, the Secrets Providers block. -/
def secretsBlock (env : Env) (c : Config) : Config :=
  if is_truthy (env "NAUTOBOT_SECRETS_PROVIDERS_ENABLED") then
    thycoticStep env (ensurePlugin "nautobot_secrets_providers" c)
  else c

/-- All feature blocks that write into the three shared targets, applied in
source order. -/
def applyBlocks (app_name : String) (env : Env) (c : Config) : Config :=
  secretsBlock env
    (deviceOnboardingBlock2 env
      (ssotBlock env
        (ldapBlock env
          (deviceOnboardingBlock1 env
            (dataValidationBlock env
              (appBlock app_name env c))))))

/-- A run of the whole settings module over the three shared targets, outside
test mode: `LOGGING` (and with it the `loggers` table) is re-assigned from
scratch on lines 129-161, then the feature blocks run. -/
def runConfig (app_name : String) (env : Env) (c : Config) : Config :=
  applyBlocks app_name env { c with loggers := baseLoggers env }

/-- The state the module starts from when nothing defined `PLUGINS` or
`PLUGINS_CONFIG` elsewhere (lines 179-182) and `LOGGING` was just assigned. -/
def freshConfig (env : Env) : Config :=
  { PLUGINS := [], PLUGINS_CONFIG := [], loggers := baseLoggers env }

/-! ## Lemmas about the dictionary model -/

theorem not_memKey {α : Type} {m : List (String × α)} {k : String}
    (h : memKey m k = false) : ∀ p ∈ m, (p.1 == k) = false := by
  intro p hp
  unfold memKey at h
  rw [List.any_eq_false] at h
  simpa using h p hp

theorem memKey_replaceKey {α : Type} (m : List (String × α)) (k k' : String) (v : α) :
    memKey (replaceKey m k v) k' = memKey m k' := by
  induction m with
  | nil => rfl
  | cons p m ih =>
    unfold memKey at ih ⊢
    by_cases hp : p.1 == k
    · have hk : p.1 = k := beq_iff_eq.mp hp
      simp [replaceKey, hp, List.any_cons, ih, hk]
    · simp [replaceKey, hp, List.any_cons, ih]

theorem lookupKey_replaceKey_self {α : Type} (m : List (String × α)) (k : String) (v : α)
    (hm : memKey m k = true) : lookupKey (replaceKey m k v) k = some v := by
  induction m with
  | nil => simp [memKey] at hm
  | cons p m ih =>
    by_cases hp : p.1 == k
    · simp [replaceKey, lookupKey, hp, List.find?]
    · have hm' : memKey m k = true := by
        unfold memKey at hm ⊢
        simpa [hp] using hm
      simp only [replaceKey, hp, if_false, lookupKey, List.find?] at ih ⊢
      simpa [hp] using ih hm'

theorem lookupKey_replaceKey_ne {α : Type} (m : List (String × α)) (k k' : String) (v : α)
    (h : k' ≠ k) : lookupKey (replaceKey m k v) k' = lookupKey m k' := by
  have hk : (k == k') = false := beq_eq_false_iff_ne.mpr (Ne.symm h)
  induction m with
  | nil => rfl
  | cons p m ih =>
    by_cases hp : p.1 == k
    · have hp1 : p.1 = k := beq_iff_eq.mp hp
      have hp' : (p.1 == k') = false := by rw [hp1]; exact hk
      simp only [replaceKey, hp, if_true, lookupKey, List.find?, hk, hp'] at ih ⊢
      exact ih
    · simp only [replaceKey, hp, if_false, lookupKey, List.find?] at ih ⊢
      by_cases hq : p.1 == k' <;> simp [hq, ih]

theorem replaceKey_eq_self {α : Type} (m : List (String × α)) (k : String) (v : α)
    (h : ∀ p ∈ m, p.1 = k → p.2 = v) : replaceKey m k v = m := by
  induction m with
  | nil => rfl
  | cons p m ih =>
    have ih' := ih (fun q hq => h q (List.mem_cons_of_mem p hq))
    by_cases hp : p.1 == k
    · have hp1 : p.1 = k := beq_iff_eq.mp hp
      have hv : p.2 = v := h p (List.mem_cons_self p m) hp1
      have hpe : ((k, v) : String × α) = p := by rw [← hp1, ← hv]
      simp [replaceKey, hp, ih', hpe]
    · simp [replaceKey, hp, ih']

theorem allVal_replaceKey {α : Type} (m : List (String × α)) (k : String) (v : α) :
    ∀ p ∈ replaceKey m k v, p.1 = k → p.2 = v := by
  induction m with
  | nil => intro p hp; simp [replaceKey] at hp
  | cons q m ih =>
    intro p hp hk
    rcases List.mem_cons.mp hp with h1 | h2
    · by_cases hq : q.1 == k
      · simp [hq] at h1; rw [h1]
      · simp [hq] at h1
        exact absurd (h1 ▸ hk) (by simpa using hq)
    · exact ih p h2 hk

theorem memKey_append {α : Type} (m l : List (String × α)) (k : String) :
    memKey (m ++ l) k = (memKey m k || memKey l k) := by
  unfold memKey
  exact List.any_append

theorem lookupKey_append_left {α : Type} (m l : List (String × α)) (k : String)
    (h : memKey m k = true) : lookupKey (m ++ l) k = lookupKey m k := by
  induction m with
  | nil => simp [memKey] at h
  | cons p m ih =>
    by_cases hp : p.1 == k
    · simp [lookupKey, List.find?, hp]
    · have h' : memKey m k = true := by
        unfold memKey at h ⊢
        simpa [hp] using h
      simp only [List.cons_append, lookupKey, List.find?, hp] at ih ⊢
      exact ih h'

theorem lookupKey_append_right {α : Type} (m l : List (String × α)) (k : String)
    (h : memKey m k = false) : lookupKey (m ++ l) k = lookupKey l k := by
  induction m with
  | nil => rfl
  | cons p m ih =>
    have hp := not_memKey h p (List.mem_cons_self p m)
    have h' : memKey m k = false := by
      unfold memKey at h ⊢
      simpa [hp] using h
    simp only [List.cons_append, lookupKey, List.find?, hp] at ih ⊢
    exact ih h'

theorem memKey_dictSet_self {α : Type} (m : List (String × α)) (k : String) (v : α) :
    memKey (dictSet m k v) k = true := by
  unfold dictSet
  by_cases hm : memKey m k
  · rw [if_pos hm, memKey_replaceKey]; exact hm
  · rw [if_neg (by simpa using hm), memKey_append]
    simp [memKey]

theorem memKey_dictSet_ne {α : Type} (m : List (String × α)) (k k' : String) (v : α)
    (h : k' ≠ k) : memKey (dictSet m k v) k' = memKey m k' := by
  unfold dictSet
  by_cases hm : memKey m k
  · rw [if_pos hm, memKey_replaceKey]
  · rw [if_neg (by simpa using hm), memKey_append]
    have : (k == k') = false := beq_eq_false_iff_ne.mpr (Ne.symm h)
    simp [memKey, this]

theorem lookupKey_dictSet_self {α : Type} (m : List (String × α)) (k : String) (v : α) :
    lookupKey (dictSet m k v) k = some v := by
  unfold dictSet
  by_cases hm : memKey m k
  · rw [if_pos hm]; exact lookupKey_replaceKey_self m k v hm
  · rw [if_neg (by simpa using hm),
      lookupKey_append_right m _ k (by simpa using hm)]
    simp [lookupKey, List.find?]

theorem lookupKey_dictSet_ne {α : Type} (m : List (String × α)) (k k' : String) (v : α)
    (h : k' ≠ k) : lookupKey (dictSet m k v) k' = lookupKey m k' := by
  unfold dictSet
  by_cases hm : memKey m k
  · rw [if_pos hm]; exact lookupKey_replaceKey_ne m k k' v h
  · rw [if_neg (by simpa using hm)]
    by_cases hk' : memKey m k'
    · exact lookupKey_append_left m _ k' hk'
    · rw [lookupKey_append_right m _ k' (by simpa using hk')]
      have hkk : (k == k') = false := beq_eq_false_iff_ne.mpr (Ne.symm h)
      have hnone : lookupKey m k' = none := by
        unfold lookupKey
        have hfind : List.find? (fun p => p.1 == k') m = none := by
          rw [List.find?_eq_none]
          intro p hp
          simpa using not_memKey (by simpa using hk') p hp
        rw [hfind]
        rfl
      rw [hnone]
      simp [lookupKey, List.find?, hkk]

theorem dictSet_eq_self {α : Type} (m : List (String × α)) (k : String) (v : α)
    (hm : memKey m k = true) (hv : ∀ p ∈ m, p.1 = k → p.2 = v) :
    dictSet m k v = m := by
  unfold dictSet
  rw [if_pos hm]
  exact replaceKey_eq_self m k v hv

theorem allVal_dictSet {α : Type} (m : List (String × α)) (k : String) (v : α) :
    ∀ p ∈ dictSet m k v, p.1 = k → p.2 = v := by
  unfold dictSet
  by_cases hm : memKey m k
  · rw [if_pos hm]; exact allVal_replaceKey m k v
  · rw [if_neg (by simpa using hm)]
    intro p hp hk
    rcases List.mem_append.mp hp with h1 | h2
    · exact absurd (by simpa using hk) (by simpa using not_memKey (by simpa using hm) p h1)
    · simp at h2; rw [h2]

theorem dictUpdate_single {α : Type} (m : List (String × α)) (k : String) (v : α) :
    dictUpdate m [(k, v)] = dictSet m k v := rfl

/-! ## Lemmas about the guarded-write combinators -/

theorem ensurePlugin_PLUGINS_CONFIG (n : String) (c : Config) :
    (ensurePlugin n c).PLUGINS_CONFIG = c.PLUGINS_CONFIG := by
  unfold ensurePlugin; split <;> rfl

theorem ensurePlugin_loggers (n : String) (c : Config) :
    (ensurePlugin n c).loggers = c.loggers := by
  unfold ensurePlugin; split <;> rfl

theorem ensurePlugin_cases (n : String) (c : Config) :
    (ensurePlugin n c).PLUGINS = c.PLUGINS ∨
      (n ∉ c.PLUGINS ∧ (ensurePlugin n c).PLUGINS = c.PLUGINS ++ [n]) := by
  unfold ensurePlugin
  by_cases h : n ∈ c.PLUGINS
  · left; simp [h]
  · right; refine ⟨h, ?_⟩; simp [h]

theorem ensurePlugin_eq_self (n : String) (c : Config) (h : n ∈ c.PLUGINS) :
    ensurePlugin n c = c := by
  simp [ensurePlugin, h]

theorem mem_ensurePlugin_self (n : String) (c : Config) :
    n ∈ (ensurePlugin n c).PLUGINS := by
  unfold ensurePlugin
  by_cases h : n ∈ c.PLUGINS
  · simp [h]
  · simp [h]

theorem ensurePluginConfig_PLUGINS (n : String) (d : Dict) (c : Config) :
    (ensurePluginConfig n d c).PLUGINS = c.PLUGINS := by
  unfold ensurePluginConfig; split <;> rfl

theorem ensurePluginConfig_loggers (n : String) (d : Dict) (c : Config) :
    (ensurePluginConfig n d c).loggers = c.loggers := by
  unfold ensurePluginConfig; split <;> rfl

theorem ensurePluginConfig_cases (n : String) (d : Dict) (c : Config) :
    (ensurePluginConfig n d c).PLUGINS_CONFIG = c.PLUGINS_CONFIG ∨
      (memKey c.PLUGINS_CONFIG n = false ∧
        (ensurePluginConfig n d c).PLUGINS_CONFIG = dictSet c.PLUGINS_CONFIG n d) := by
  unfold ensurePluginConfig
  by_cases h : memKey c.PLUGINS_CONFIG n
  · left; simp [h]
  · right; exact ⟨by simpa using h, by simp [h]⟩

theorem ensurePluginConfig_eq_self (n : String) (d : Dict) (c : Config)
    (h : memKey c.PLUGINS_CONFIG n = true) : ensurePluginConfig n d c = c := by
  simp [ensurePluginConfig, h]

theorem memKey_ensurePluginConfig_self (n : String) (d : Dict) (c : Config) :
    memKey (ensurePluginConfig n d c).PLUGINS_CONFIG n = true := by
  unfold ensurePluginConfig
  by_cases h : memKey c.PLUGINS_CONFIG n
  · simp [h]
  · simp [h, memKey_dictSet_self]

theorem ensureLogger_PLUGINS (n : String) (cfg : LoggerCfg) (c : Config) :
    (ensureLogger n cfg c).PLUGINS = c.PLUGINS := by
  unfold ensureLogger; split <;> rfl

theorem ensureLogger_PLUGINS_CONFIG (n : String) (cfg : LoggerCfg) (c : Config) :
    (ensureLogger n cfg c).PLUGINS_CONFIG = c.PLUGINS_CONFIG := by
  unfold ensureLogger; split <;> rfl

theorem ensureLogger_cases (n : String) (cfg : LoggerCfg) (c : Config) :
    (ensureLogger n cfg c).loggers = c.loggers ∨
      (memKey c.loggers n = false ∧
        (ensureLogger n cfg c).loggers = dictSet c.loggers n cfg) := by
  unfold ensureLogger
  by_cases h : memKey c.loggers n
  · left; simp [h]
  · right; exact ⟨by simpa using h, by simp [h]⟩

theorem ensureLogger_eq_self (n : String) (cfg : LoggerCfg) (c : Config)
    (h : memKey c.loggers n = true) : ensureLogger n cfg c = c := by
  simp [ensureLogger, h]

theorem memKey_ensureLogger_self (n : String) (cfg : LoggerCfg) (c : Config) :
    memKey (ensureLogger n cfg c).loggers n = true := by
  unfold ensureLogger
  by_cases h : memKey c.loggers n
  · simp [h]
  · simp [h, memKey_dictSet_self]

/-! ## Generic helpers for reasoning about one guarded write -/

theorem memKey_dictSet_mono {α : Type} {m : List (String × α)} {n k : String} {v : α}
    (h : memKey m k = true) : memKey (dictSet m n v) k = true := by
  by_cases he : k = n
  · subst he; exact memKey_dictSet_self m k v
  · rw [memKey_dictSet_ne m n k v he]; exact h

theorem mem_append_cases {Q : Prop} {P P' : List String} {n x : String}
    (hc : P' = P ∨ (Q ∧ P' = P ++ [n])) (h : x ∈ P) : x ∈ P' := by
  rcases hc with h' | ⟨_, h'⟩ <;> rw [h'] <;> simp [h]

theorem count_append_cases_ne {Q : Prop} {P P' : List String} {n x : String}
    (hc : P' = P ∨ (Q ∧ P' = P ++ [n])) (h : x ≠ n) : P'.count x = P.count x := by
  rcases hc with h' | ⟨_, h'⟩
  · rw [h']
  · rw [h']
    simp [List.count_append, h]

theorem count_append_cases_mem {P P' : List String} {n x : String}
    (hc : P' = P ∨ (n ∉ P ∧ P' = P ++ [n])) (h : x ∈ P) : P'.count x = P.count x := by
  rcases hc with h' | ⟨hn, h'⟩
  · rw [h']
  · rw [h']
    have : x ≠ n := fun he => hn (he ▸ h)
    simp [List.count_append, this]

theorem memKey_dict_cases {Q : Prop} {α : Type} {M M' : List (String × α)} {n k : String}
    {d : α} (hc : M' = M ∨ (Q ∧ M' = dictSet M n d)) (h : memKey M k = true) :
    memKey M' k = true := by
  rcases hc with h' | ⟨_, h'⟩ <;> rw [h']
  · exact h
  · exact memKey_dictSet_mono h

theorem lookup_dict_cases_guard {α : Type} {M M' : List (String × α)} {n k : String}
    {d : α} (hc : M' = M ∨ (memKey M n = false ∧ M' = dictSet M n d))
    (h : memKey M k = true) : lookupKey M' k = lookupKey M k := by
  rcases hc with h' | ⟨hn, h'⟩
  · rw [h']
  · rw [h']
    have : k ≠ n := fun he => by rw [he] at h; rw [h] at hn; cases hn
    exact lookupKey_dictSet_ne M n k d this

theorem lookup_dict_cases_ne {Q : Prop} {α : Type} {M M' : List (String × α)} {n k : String}
    {d : α} (hc : M' = M ∨ (Q ∧ M' = dictSet M n d)) (h : k ≠ n) :
    lookupKey M' k = lookupKey M k := by
  rcases hc with h' | ⟨_, h'⟩ <;> rw [h']
  exact lookupKey_dictSet_ne M n k d h

/-! ## Per-block component lemmas

For every feature block and each of the three state components: either the
component is unchanged, or the block performed its one guarded write. -/

theorem appBlock_plugins (a : String) (env : Env) (c : Config) :
    (appBlock a env c).PLUGINS = c.PLUGINS ∨
      (a ∉ c.PLUGINS ∧ (appBlock a env c).PLUGINS = c.PLUGINS ++ [a]) := by
  unfold appBlock
  split
  · rw [ensureLogger_PLUGINS, ensurePluginConfig_PLUGINS]
    exact ensurePlugin_cases a c
  · left; rfl

theorem appBlock_pc (a : String) (env : Env) (c : Config) :
    (appBlock a env c).PLUGINS_CONFIG = c.PLUGINS_CONFIG ∨
      (memKey c.PLUGINS_CONFIG a = false ∧
        (appBlock a env c).PLUGINS_CONFIG = dictSet c.PLUGINS_CONFIG a []) := by
  unfold appBlock
  split
  · rw [ensureLogger_PLUGINS_CONFIG]
    have h := ensurePluginConfig_cases a [] (ensurePlugin a c)
    rwa [ensurePlugin_PLUGINS_CONFIG] at h
  · left; rfl

theorem appBlock_loggers (a : String) (env : Env) (c : Config) :
    (appBlock a env c).loggers = c.loggers ∨
      (memKey c.loggers a = false ∧
        (appBlock a env c).loggers = dictSet c.loggers a (appLoggerCfg env)) := by
  unfold appBlock
  split
  · have h := ensureLogger_cases a (appLoggerCfg env) (ensurePluginConfig a [] (ensurePlugin a c))
    rwa [ensurePluginConfig_loggers, ensurePlugin_loggers] at h
  · left; rfl

theorem dataValidationAppend_pc (c : Config) :
    (dataValidationAppend c).PLUGINS_CONFIG = c.PLUGINS_CONFIG := by
  unfold dataValidationAppend; split <;> rfl

theorem dataValidationAppend_loggers (c : Config) :
    (dataValidationAppend c).loggers = c.loggers := by
  unfold dataValidationAppend; split <;> rfl

theorem dataValidationBlock_plugins (env : Env) (c : Config) :
    (dataValidationBlock env c).PLUGINS = c.PLUGINS ∨
      (memKey c.PLUGINS_CONFIG "nautobot_data_validation_engine" = false ∧
        (dataValidationBlock env c).PLUGINS = c.PLUGINS ++ ["nautobot_data_validation_engine"]) := by
  unfold dataValidationBlock
  split
  · rw [ensurePluginConfig_PLUGINS]
    unfold dataValidationAppend
    by_cases h : memKey c.PLUGINS_CONFIG "nautobot_data_validation_engine"
    · left; simp [h]
    · right; exact ⟨by simpa using h, by simp [h]⟩
  · left; rfl

theorem dataValidationBlock_pc (env : Env) (c : Config) :
    (dataValidationBlock env c).PLUGINS_CONFIG = c.PLUGINS_CONFIG ∨
      (memKey c.PLUGINS_CONFIG "nautobot_data_validation_engine" = false ∧
        (dataValidationBlock env c).PLUGINS_CONFIG =
          dictSet c.PLUGINS_CONFIG "nautobot_data_validation_engine" []) := by
  unfold dataValidationBlock
  split
  · have h := ensurePluginConfig_cases "nautobot_data_validation_engine" [] (dataValidationAppend c)
    rwa [dataValidationAppend_pc] at h
  · left; rfl

theorem dataValidationBlock_loggers (env : Env) (c : Config) :
    (dataValidationBlock env c).loggers = c.loggers := by
  unfold dataValidationBlock
  split
  · rw [ensurePluginConfig_loggers, dataValidationAppend_loggers]
  · rfl

theorem deviceOnboardingBlock1_plugins (env : Env) (c : Config) :
    (deviceOnboardingBlock1 env c).PLUGINS = c.PLUGINS ∨
      ("nautobot_device_onboarding" ∉ c.PLUGINS ∧
        (deviceOnboardingBlock1 env c).PLUGINS = c.PLUGINS ++ ["nautobot_device_onboarding"]) := by
  unfold deviceOnboardingBlock1
  split
  · rw [ensurePluginConfig_PLUGINS]
    exact ensurePlugin_cases _ c
  · left; rfl

theorem deviceOnboardingBlock1_pc (env : Env) (c : Config) :
    (deviceOnboardingBlock1 env c).PLUGINS_CONFIG = c.PLUGINS_CONFIG ∨
      (memKey c.PLUGINS_CONFIG "nautobot_device_onboarding" = false ∧
        (deviceOnboardingBlock1 env c).PLUGINS_CONFIG =
          dictSet c.PLUGINS_CONFIG "nautobot_device_onboarding" deviceOnboardingCfg1) := by
  unfold deviceOnboardingBlock1
  split
  · have h := ensurePluginConfig_cases "nautobot_device_onboarding" deviceOnboardingCfg1
      (ensurePlugin "nautobot_device_onboarding" c)
    rwa [ensurePlugin_PLUGINS_CONFIG] at h
  · left; rfl

theorem deviceOnboardingBlock1_loggers (env : Env) (c : Config) :
    (deviceOnboardingBlock1 env c).loggers = c.loggers := by
  unfold deviceOnboardingBlock1
  split
  · rw [ensurePluginConfig_loggers, ensurePlugin_loggers]
  · rfl

theorem ldapBlock_plugins (env : Env) (c : Config) :
    (ldapBlock env c).PLUGINS = c.PLUGINS := by
  unfold ldapBlock; split <;> rfl

theorem ldapBlock_pc (env : Env) (c : Config) :
    (ldapBlock env c).PLUGINS_CONFIG = c.PLUGINS_CONFIG := by
  unfold ldapBlock; split <;> rfl

theorem ldapBlock_loggers (env : Env) (c : Config) :
    (ldapBlock env c).loggers = c.loggers ∨
      (ldapBlock env c).loggers = dictSet c.loggers "django_auth_ldap" (ldapLoggerCfg env) := by
  unfold ldapBlock
  split
  · right; rfl
  · left; rfl

theorem ssotBlock_plugins (env : Env) (c : Config) :
    (ssotBlock env c).PLUGINS = c.PLUGINS ∨
      ("nautobot_ssot" ∉ c.PLUGINS ∧
        (ssotBlock env c).PLUGINS = c.PLUGINS ++ ["nautobot_ssot"]) := by
  unfold ssotBlock
  split
  · rw [ensurePluginConfig_PLUGINS]
    exact ensurePlugin_cases _ c
  · left; rfl

theorem ssotBlock_pc (env : Env) (c : Config) :
    (ssotBlock env c).PLUGINS_CONFIG = c.PLUGINS_CONFIG ∨
      (memKey c.PLUGINS_CONFIG "nautobot_ssot" = false ∧
        (ssotBlock env c).PLUGINS_CONFIG =
          dictSet c.PLUGINS_CONFIG "nautobot_ssot" [("hide_example_jobs", Val.bool true)]) := by
  unfold ssotBlock
  split
  · have h := ensurePluginConfig_cases "nautobot_ssot" [("hide_example_jobs", Val.bool true)]
      (ensurePlugin "nautobot_ssot" c)
    rwa [ensurePlugin_PLUGINS_CONFIG] at h
  · left; rfl

theorem ssotBlock_loggers (env : Env) (c : Config) :
    (ssotBlock env c).loggers = c.loggers := by
  unfold ssotBlock
  split
  · rw [ensurePluginConfig_loggers, ensurePlugin_loggers]
  · rfl

theorem deviceOnboardingBlock2_plugins (env : Env) (c : Config) :
    (deviceOnboardingBlock2 env c).PLUGINS = c.PLUGINS ∨
      ("nautobot_device_onboarding" ∉ c.PLUGINS ∧
        (deviceOnboardingBlock2 env c).PLUGINS = c.PLUGINS ++ ["nautobot_device_onboarding"]) := by
  unfold deviceOnboardingBlock2
  split
  · rw [ensurePluginConfig_PLUGINS]
    exact ensurePlugin_cases _ c
  · left; rfl

theorem deviceOnboardingBlock2_pc (env : Env) (c : Config) :
    (deviceOnboardingBlock2 env c).PLUGINS_CONFIG = c.PLUGINS_CONFIG ∨
      (memKey c.PLUGINS_CONFIG "nautobot_device_onboarding" = false ∧
        (deviceOnboardingBlock2 env c).PLUGINS_CONFIG =
          dictSet c.PLUGINS_CONFIG "nautobot_device_onboarding" deviceOnboardingCfg2) := by
  unfold deviceOnboardingBlock2
  split
  · have h := ensurePluginConfig_cases "nautobot_device_onboarding" deviceOnboardingCfg2
      (ensurePlugin "nautobot_device_onboarding" c)
    rwa [ensurePlugin_PLUGINS_CONFIG] at h
  · left; rfl

theorem deviceOnboardingBlock2_loggers (env : Env) (c : Config) :
    (deviceOnboardingBlock2 env c).loggers = c.loggers := by
  unfold deviceOnboardingBlock2
  split
  · rw [ensurePluginConfig_loggers, ensurePlugin_loggers]
  · rfl

theorem thycoticStep_PLUGINS (env : Env) (c : Config) :
    (thycoticStep env c).PLUGINS = c.PLUGINS := by
  unfold thycoticStep; split
  · split <;> rfl
  · rfl

theorem thycoticStep_loggers (env : Env) (c : Config) :
    (thycoticStep env c).loggers = c.loggers := by
  unfold thycoticStep; split
  · split <;> rfl
  · rfl

theorem thycoticStep_pc (env : Env) (c : Config) :
    (thycoticStep env c).PLUGINS_CONFIG = c.PLUGINS_CONFIG ∨
      ∃ d, memKey d "thycotic" = true ∧
        (thycoticStep env c).PLUGINS_CONFIG =
          dictSet c.PLUGINS_CONFIG "nautobot_secrets_providers" d := by
  unfold thycoticStep
  split
  · split
    · right
      refine ⟨_, ?_, rfl⟩
      simp only [thycotic_seetings, dictUpdate_single]
      exact memKey_dictSet_self _ _ _
    · right
      refine ⟨thycotic_seetings env, ?_, ?_⟩
      · simp [thycotic_seetings, memKey]
      · rw [dictUpdate_single]
  · left; rfl

theorem secretsBlock_plugins (env : Env) (c : Config) :
    (secretsBlock env c).PLUGINS = c.PLUGINS ∨
      ("nautobot_secrets_providers" ∉ c.PLUGINS ∧
        (secretsBlock env c).PLUGINS = c.PLUGINS ++ ["nautobot_secrets_providers"]) := by
  unfold secretsBlock
  split
  · rw [thycoticStep_PLUGINS]
    exact ensurePlugin_cases _ c
  · left; rfl

theorem secretsBlock_pc (env : Env) (c : Config) :
    (secretsBlock env c).PLUGINS_CONFIG = c.PLUGINS_CONFIG ∨
      ∃ d, memKey d "thycotic" = true ∧
        (secretsBlock env c).PLUGINS_CONFIG =
          dictSet c.PLUGINS_CONFIG "nautobot_secrets_providers" d := by
  unfold secretsBlock
  split
  · have h := thycoticStep_pc env (ensurePlugin "nautobot_secrets_providers" c)
    rwa [ensurePlugin_PLUGINS_CONFIG] at h
  · left; rfl

theorem secretsBlock_loggers (env : Env) (c : Config) :
    (secretsBlock env c).loggers = c.loggers := by
  unfold secretsBlock
  split
  · rw [thycoticStep_loggers, ensurePlugin_loggers]
  · rfl

/-! ## Fixed-point lemmas: when the guards already hold, a block is a no-op -/

theorem dataValidationAppend_eq_self (c : Config)
    (h : memKey c.PLUGINS_CONFIG "nautobot_data_validation_engine" = true) :
    dataValidationAppend c = c := by
  simp [dataValidationAppend, h]

theorem thycoticStep_eq_self (env : Env) (c : Config)
    (h1 : memKey c.PLUGINS_CONFIG "nautobot_secrets_providers" = true)
    (h2 : memKey ((lookupKey c.PLUGINS_CONFIG "nautobot_secrets_providers").getD [])
      "thycotic" = true) : thycoticStep env c = c := by
  unfold thycoticStep
  rw [if_neg]
  simp [h1, h2]

theorem appBlock_fix (a : String) (env : Env) (c : Config)
    (h : is_truthy (env ("NAUTOBOT_" ++ str_upper a ++ "_ENABLED")) = true →
      a ∈ c.PLUGINS ∧ memKey c.PLUGINS_CONFIG a = true ∧ memKey c.loggers a = true) :
    appBlock a env c = c := by
  unfold appBlock
  split
  · rename_i hf
    obtain ⟨h1, h2, h3⟩ := h hf
    rw [ensurePlugin_eq_self a c h1, ensurePluginConfig_eq_self a [] c h2,
      ensureLogger_eq_self a (appLoggerCfg env) c h3]
  · rfl

theorem dataValidationBlock_fix (env : Env) (c : Config)
    (h : is_truthy (env "NAUTOBOT_DATA_VALIDATION_ENGINE_ENABLED") = true →
      memKey c.PLUGINS_CONFIG "nautobot_data_validation_engine" = true) :
    dataValidationBlock env c = c := by
  unfold dataValidationBlock
  split
  · rename_i hf
    rw [dataValidationAppend_eq_self c (h hf), ensurePluginConfig_eq_self _ _ c (h hf)]
  · rfl

theorem deviceOnboardingBlock1_fix (env : Env) (c : Config)
    (h : is_truthy (env "NAUTOBOT_DEVICE_ONBOARDING_ENABLED") = true →
      "nautobot_device_onboarding" ∈ c.PLUGINS ∧
        memKey c.PLUGINS_CONFIG "nautobot_device_onboarding" = true) :
    deviceOnboardingBlock1 env c = c := by
  unfold deviceOnboardingBlock1
  split
  · rename_i hf
    rw [ensurePlugin_eq_self _ c (h hf).1, ensurePluginConfig_eq_self _ _ c (h hf).2]
  · rfl

theorem ldapBlock_fix (env : Env) (c : Config)
    (h : (DJANGO_AUTH_LDAP_ENABLED env && optTruthy (AUTH_LDAP_SERVER_URI env)) = true →
      memKey c.loggers "django_auth_ldap" = true ∧
        ∀ p ∈ c.loggers, p.1 = "django_auth_ldap" → p.2 = ldapLoggerCfg env) :
    ldapBlock env c = c := by
  unfold ldapBlock
  split
  · rename_i hf
    rw [dictSet_eq_self _ _ _ (h hf).1 (h hf).2]
  · rfl

theorem ssotBlock_fix (env : Env) (c : Config)
    (h : is_truthy (env "NAUTOBOT_SSOT_ENABLED") = true →
      "nautobot_ssot" ∈ c.PLUGINS ∧ memKey c.PLUGINS_CONFIG "nautobot_ssot" = true) :
    ssotBlock env c = c := by
  unfold ssotBlock
  split
  · rename_i hf
    rw [ensurePlugin_eq_self _ c (h hf).1, ensurePluginConfig_eq_self _ _ c (h hf).2]
  · rfl

theorem deviceOnboardingBlock2_fix (env : Env) (c : Config)
    (h : is_truthy (env "NAUTOBOT_DEVICE_ONBOARDING_ENABLED") = true →
      "nautobot_device_onboarding" ∈ c.PLUGINS ∧
        memKey c.PLUGINS_CONFIG "nautobot_device_onboarding" = true) :
    deviceOnboardingBlock2 env c = c := by
  unfold deviceOnboardingBlock2
  split
  · rename_i hf
    rw [ensurePlugin_eq_self _ c (h hf).1, ensurePluginConfig_eq_self _ _ c (h hf).2]
  · rfl

theorem secretsBlock_fix (env : Env) (c : Config)
    (h : is_truthy (env "NAUTOBOT_SECRETS_PROVIDERS_ENABLED") = true →
      "nautobot_secrets_providers" ∈ c.PLUGINS ∧
        memKey c.PLUGINS_CONFIG "nautobot_secrets_providers" = true ∧
        memKey ((lookupKey c.PLUGINS_CONFIG "nautobot_secrets_providers").getD [])
          "thycotic" = true) :
    secretsBlock env c = c := by
  unfold secretsBlock
  split
  · rename_i hf
    rw [ensurePlugin_eq_self _ c (h hf).1, thycoticStep_eq_self env c (h hf).2.1 (h hf).2.2]
  · rfl

/-! ## Establishment lemmas: after an enabled block, its guards hold -/

theorem appBlock_est (a : String) (env : Env) (c : Config)
    (hf : is_truthy (env ("NAUTOBOT_" ++ str_upper a ++ "_ENABLED")) = true) :
    a ∈ (appBlock a env c).PLUGINS ∧
      memKey (appBlock a env c).PLUGINS_CONFIG a = true ∧
      memKey (appBlock a env c).loggers a = true := by
  unfold appBlock
  rw [if_pos hf]
  refine ⟨?_, ?_, ?_⟩
  · rw [ensureLogger_PLUGINS, ensurePluginConfig_PLUGINS]
    exact mem_ensurePlugin_self a c
  · rw [ensureLogger_PLUGINS_CONFIG]
    exact memKey_ensurePluginConfig_self a [] _
  · exact memKey_ensureLogger_self a _ _

theorem dataValidationBlock_est (env : Env) (c : Config)
    (hf : is_truthy (env "NAUTOBOT_DATA_VALIDATION_ENGINE_ENABLED") = true) :
    memKey (dataValidationBlock env c).PLUGINS_CONFIG
      "nautobot_data_validation_engine" = true := by
  unfold dataValidationBlock
  rw [if_pos hf]
  exact memKey_ensurePluginConfig_self _ _ _

theorem deviceOnboardingBlock1_est (env : Env) (c : Config)
    (hf : is_truthy (env "NAUTOBOT_DEVICE_ONBOARDING_ENABLED") = true) :
    "nautobot_device_onboarding" ∈ (deviceOnboardingBlock1 env c).PLUGINS ∧
      memKey (deviceOnboardingBlock1 env c).PLUGINS_CONFIG
        "nautobot_device_onboarding" = true := by
  unfold deviceOnboardingBlock1
  rw [if_pos hf]
  refine ⟨?_, ?_⟩
  · rw [ensurePluginConfig_PLUGINS]
    exact mem_ensurePlugin_self _ c
  · exact memKey_ensurePluginConfig_self _ _ _

theorem ldapBlock_est (env : Env) (c : Config)
    (hf : (DJANGO_AUTH_LDAP_ENABLED env && optTruthy (AUTH_LDAP_SERVER_URI env)) = true) :
    memKey (ldapBlock env c).loggers "django_auth_ldap" = true ∧
      ∀ p ∈ (ldapBlock env c).loggers, p.1 = "django_auth_ldap" →
        p.2 = ldapLoggerCfg env := by
  unfold ldapBlock
  rw [if_pos hf]
  exact ⟨memKey_dictSet_self _ _ _, allVal_dictSet _ _ _⟩

theorem ssotBlock_est (env : Env) (c : Config)
    (hf : is_truthy (env "NAUTOBOT_SSOT_ENABLED") = true) :
    "nautobot_ssot" ∈ (ssotBlock env c).PLUGINS ∧
      memKey (ssotBlock env c).PLUGINS_CONFIG "nautobot_ssot" = true := by
  unfold ssotBlock
  rw [if_pos hf]
  refine ⟨?_, ?_⟩
  · rw [ensurePluginConfig_PLUGINS]
    exact mem_ensurePlugin_self _ c
  · exact memKey_ensurePluginConfig_self _ _ _

theorem thycoticStep_est (env : Env) (c : Config) :
    memKey (thycoticStep env c).PLUGINS_CONFIG "nautobot_secrets_providers" = true ∧
      memKey ((lookupKey (thycoticStep env c).PLUGINS_CONFIG
        "nautobot_secrets_providers").getD []) "thycotic" = true := by
  unfold thycoticStep
  by_cases hA : memKey c.PLUGINS_CONFIG "nautobot_secrets_providers"
  · by_cases hB : memKey ((lookupKey c.PLUGINS_CONFIG
        "nautobot_secrets_providers").getD []) "thycotic"
    · rw [if_neg (by simp [hA, hB])]
      exact ⟨hA, hB⟩
    · rw [if_pos (by simp [hB]), if_pos hA]
      constructor
      · exact memKey_dictSet_self _ _ _
      · rw [lookupKey_dictSet_self]
        simp only [Option.getD_some, thycotic_seetings, dictUpdate_single]
        exact memKey_dictSet_self _ _ _
  · rw [if_pos (by simp [hA]), if_neg hA]
    constructor
    · rw [dictUpdate_single]
      exact memKey_dictSet_self _ _ _
    · rw [dictUpdate_single, lookupKey_dictSet_self]
      simp [thycotic_seetings, memKey]

theorem secretsBlock_est (env : Env) (c : Config)
    (hf : is_truthy (env "NAUTOBOT_SECRETS_PROVIDERS_ENABLED") = true) :
    "nautobot_secrets_providers" ∈ (secretsBlock env c).PLUGINS ∧
      memKey (secretsBlock env c).PLUGINS_CONFIG "nautobot_secrets_providers" = true ∧
      memKey ((lookupKey (secretsBlock env c).PLUGINS_CONFIG
        "nautobot_secrets_providers").getD []) "thycotic" = true := by
  unfold secretsBlock
  rw [if_pos hf]
  refine ⟨?_, (thycoticStep_est env _).1, (thycoticStep_est env _).2⟩
  rw [thycoticStep_PLUGINS]
  exact mem_ensurePlugin_self _ c

/-! ## Monotonicity: no block removes a plugin, a config key or a logger -/

theorem appBlock_mem_mono {a : String} {env : Env} {c : Config} {x : String}
    (h : x ∈ c.PLUGINS) : x ∈ (appBlock a env c).PLUGINS :=
  mem_append_cases (appBlock_plugins a env c) h

theorem appBlock_pcmem_mono {a : String} {env : Env} {c : Config} {k : String}
    (h : memKey c.PLUGINS_CONFIG k = true) :
    memKey (appBlock a env c).PLUGINS_CONFIG k = true :=
  memKey_dict_cases (appBlock_pc a env c) h

theorem appBlock_logmem_mono {a : String} {env : Env} {c : Config} {k : String}
    (h : memKey c.loggers k = true) : memKey (appBlock a env c).loggers k = true :=
  memKey_dict_cases (appBlock_loggers a env c) h

theorem dataValidationBlock_mem_mono {env : Env} {c : Config} {x : String}
    (h : x ∈ c.PLUGINS) : x ∈ (dataValidationBlock env c).PLUGINS :=
  mem_append_cases (dataValidationBlock_plugins env c) h

theorem dataValidationBlock_pcmem_mono {env : Env} {c : Config} {k : String}
    (h : memKey c.PLUGINS_CONFIG k = true) :
    memKey (dataValidationBlock env c).PLUGINS_CONFIG k = true :=
  memKey_dict_cases (dataValidationBlock_pc env c) h

theorem deviceOnboardingBlock1_mem_mono {env : Env} {c : Config} {x : String}
    (h : x ∈ c.PLUGINS) : x ∈ (deviceOnboardingBlock1 env c).PLUGINS :=
  mem_append_cases (deviceOnboardingBlock1_plugins env c) h

theorem deviceOnboardingBlock1_pcmem_mono {env : Env} {c : Config} {k : String}
    (h : memKey c.PLUGINS_CONFIG k = true) :
    memKey (deviceOnboardingBlock1 env c).PLUGINS_CONFIG k = true :=
  memKey_dict_cases (deviceOnboardingBlock1_pc env c) h

theorem ldapBlock_logmem_mono {env : Env} {c : Config} {k : String}
    (h : memKey c.loggers k = true) : memKey (ldapBlock env c).loggers k = true := by
  rcases ldapBlock_loggers env c with h' | h' <;> rw [h']
  · exact h
  · exact memKey_dictSet_mono h

theorem ssotBlock_mem_mono {env : Env} {c : Config} {x : String}
    (h : x ∈ c.PLUGINS) : x ∈ (ssotBlock env c).PLUGINS :=
  mem_append_cases (ssotBlock_plugins env c) h

theorem ssotBlock_pcmem_mono {env : Env} {c : Config} {k : String}
    (h : memKey c.PLUGINS_CONFIG k = true) :
    memKey (ssotBlock env c).PLUGINS_CONFIG k = true :=
  memKey_dict_cases (ssotBlock_pc env c) h

theorem deviceOnboardingBlock2_mem_mono {env : Env} {c : Config} {x : String}
    (h : x ∈ c.PLUGINS) : x ∈ (deviceOnboardingBlock2 env c).PLUGINS :=
  mem_append_cases (deviceOnboardingBlock2_plugins env c) h

theorem deviceOnboardingBlock2_pcmem_mono {env : Env} {c : Config} {k : String}
    (h : memKey c.PLUGINS_CONFIG k = true) :
    memKey (deviceOnboardingBlock2 env c).PLUGINS_CONFIG k = true :=
  memKey_dict_cases (deviceOnboardingBlock2_pc env c) h

theorem secretsBlock_mem_mono {env : Env} {c : Config} {x : String}
    (h : x ∈ c.PLUGINS) : x ∈ (secretsBlock env c).PLUGINS :=
  mem_append_cases (secretsBlock_plugins env c) h

theorem secretsBlock_pcmem_mono {env : Env} {c : Config} {k : String}
    (h : memKey c.PLUGINS_CONFIG k = true) :
    memKey (secretsBlock env c).PLUGINS_CONFIG k = true := by
  rcases secretsBlock_pc env c with h' | ⟨d, _, h'⟩ <;> rw [h']
  · exact h
  · exact memKey_dictSet_mono h

/-! ## After a full `applyBlocks` pass, each enabled block's guards hold -/

theorem applyBlocks_est_app (a : String) (env : Env) (c : Config)
    (hf : is_truthy (env ("NAUTOBOT_" ++ str_upper a ++ "_ENABLED")) = true) :
    a ∈ (applyBlocks a env c).PLUGINS ∧
      memKey (applyBlocks a env c).PLUGINS_CONFIG a = true ∧
      memKey (applyBlocks a env c).loggers a = true := by
  unfold applyBlocks
  obtain ⟨h1, h2, h3⟩ := appBlock_est a env c hf
  refine ⟨?_, ?_, ?_⟩
  · apply secretsBlock_mem_mono
    apply deviceOnboardingBlock2_mem_mono
    apply ssotBlock_mem_mono
    rw [ldapBlock_plugins]
    apply deviceOnboardingBlock1_mem_mono
    exact dataValidationBlock_mem_mono h1
  · apply secretsBlock_pcmem_mono
    apply deviceOnboardingBlock2_pcmem_mono
    apply ssotBlock_pcmem_mono
    rw [ldapBlock_pc]
    apply deviceOnboardingBlock1_pcmem_mono
    exact dataValidationBlock_pcmem_mono h2
  · rw [secretsBlock_loggers, deviceOnboardingBlock2_loggers, ssotBlock_loggers]
    apply ldapBlock_logmem_mono
    rw [deviceOnboardingBlock1_loggers, dataValidationBlock_loggers]
    exact h3

theorem applyBlocks_est_dv (a : String) (env : Env) (c : Config)
    (hf : is_truthy (env "NAUTOBOT_DATA_VALIDATION_ENGINE_ENABLED") = true) :
    memKey (applyBlocks a env c).PLUGINS_CONFIG
      "nautobot_data_validation_engine" = true := by
  unfold applyBlocks
  apply secretsBlock_pcmem_mono
  apply deviceOnboardingBlock2_pcmem_mono
  apply ssotBlock_pcmem_mono
  rw [ldapBlock_pc]
  apply deviceOnboardingBlock1_pcmem_mono
  exact dataValidationBlock_est env _ hf

theorem applyBlocks_est_dob (a : String) (env : Env) (c : Config)
    (hf : is_truthy (env "NAUTOBOT_DEVICE_ONBOARDING_ENABLED") = true) :
    "nautobot_device_onboarding" ∈ (applyBlocks a env c).PLUGINS ∧
      memKey (applyBlocks a env c).PLUGINS_CONFIG "nautobot_device_onboarding" = true := by
  unfold applyBlocks
  obtain ⟨h1, h2⟩ := deviceOnboardingBlock1_est env (dataValidationBlock env (appBlock a env c)) hf
  refine ⟨?_, ?_⟩
  · apply secretsBlock_mem_mono
    apply deviceOnboardingBlock2_mem_mono
    apply ssotBlock_mem_mono
    rw [ldapBlock_plugins]
    exact h1
  · apply secretsBlock_pcmem_mono
    apply deviceOnboardingBlock2_pcmem_mono
    apply ssotBlock_pcmem_mono
    rw [ldapBlock_pc]
    exact h2

theorem applyBlocks_est_ldap (a : String) (env : Env) (c : Config)
    (hf : (DJANGO_AUTH_LDAP_ENABLED env && optTruthy (AUTH_LDAP_SERVER_URI env)) = true) :
    memKey (applyBlocks a env c).loggers "django_auth_ldap" = true ∧
      ∀ p ∈ (applyBlocks a env c).loggers, p.1 = "django_auth_ldap" →
        p.2 = ldapLoggerCfg env := by
  unfold applyBlocks
  rw [secretsBlock_loggers, deviceOnboardingBlock2_loggers, ssotBlock_loggers]
  exact ldapBlock_est env _ hf

theorem applyBlocks_est_ssot (a : String) (env : Env) (c : Config)
    (hf : is_truthy (env "NAUTOBOT_SSOT_ENABLED") = true) :
    "nautobot_ssot" ∈ (applyBlocks a env c).PLUGINS ∧
      memKey (applyBlocks a env c).PLUGINS_CONFIG "nautobot_ssot" = true := by
  unfold applyBlocks
  obtain ⟨h1, h2⟩ := ssotBlock_est env
    (ldapBlock env (deviceOnboardingBlock1 env (dataValidationBlock env (appBlock a env c)))) hf
  exact ⟨secretsBlock_mem_mono (deviceOnboardingBlock2_mem_mono h1),
    secretsBlock_pcmem_mono (deviceOnboardingBlock2_pcmem_mono h2)⟩

theorem applyBlocks_est_secrets (a : String) (env : Env) (c : Config)
    (hf : is_truthy (env "NAUTOBOT_SECRETS_PROVIDERS_ENABLED") = true) :
    "nautobot_secrets_providers" ∈ (applyBlocks a env c).PLUGINS ∧
      memKey (applyBlocks a env c).PLUGINS_CONFIG "nautobot_secrets_providers" = true ∧
      memKey ((lookupKey (applyBlocks a env c).PLUGINS_CONFIG
        "nautobot_secrets_providers").getD []) "thycotic" = true := by
  unfold applyBlocks
  exact secretsBlock_est env _ hf

theorem memKey_dict_cases_ne {Q : Prop} {α : Type} {M M' : List (String × α)} {n k : String}
    {d : α} (hc : M' = M ∨ (Q ∧ M' = dictSet M n d)) (h : k ≠ n) :
    memKey M' k = memKey M k := by
  rcases hc with h' | ⟨_, h'⟩
  · rw [h']
  · rw [h']
    exact memKey_dictSet_ne M n k d h

theorem ensurePlugin_of_not_mem (n : String) (c : Config) (h : n ∉ c.PLUGINS) :
    (ensurePlugin n c).PLUGINS = c.PLUGINS ++ [n] := by
  simp [ensurePlugin, h]

theorem ensurePluginConfig_of_absent (n : String) (d : Dict) (c : Config)
    (h : memKey c.PLUGINS_CONFIG n = false) :
    (ensurePluginConfig n d c).PLUGINS_CONFIG = dictSet c.PLUGINS_CONFIG n d := by
  simp [ensurePluginConfig, h]

/-! ## Walking lemmas used by the secrets-provider claims -/

theorem applyBlocks_preserves_secrets (a : String) (env : Env) (c : Config)
    (hkey : memKey c.PLUGINS_CONFIG "nautobot_secrets_providers" = true)
    (hthy : memKey ((lookupKey c.PLUGINS_CONFIG "nautobot_secrets_providers").getD [])
      "thycotic" = true)
    (hmem : "nautobot_secrets_providers" ∈ c.PLUGINS) :
    lookupKey (applyBlocks a env c).PLUGINS_CONFIG "nautobot_secrets_providers" =
      lookupKey c.PLUGINS_CONFIG "nautobot_secrets_providers" ∧
    (applyBlocks a env c).PLUGINS.count "nautobot_secrets_providers" =
      c.PLUGINS.count "nautobot_secrets_providers" := by
  unfold applyBlocks
  set s1 := appBlock a env c with hs1
  set s2 := dataValidationBlock env s1 with hs2
  set s3 := deviceOnboardingBlock1 env s2 with hs3
  set s4 := ldapBlock env s3 with hs4
  set s5 := ssotBlock env s4 with hs5
  set s6 := deviceOnboardingBlock2 env s5 with hs6
  have k1 : memKey s1.PLUGINS_CONFIG "nautobot_secrets_providers" = true :=
    appBlock_pcmem_mono hkey
  have l1 : lookupKey s1.PLUGINS_CONFIG "nautobot_secrets_providers" =
      lookupKey c.PLUGINS_CONFIG "nautobot_secrets_providers" :=
    lookup_dict_cases_guard (appBlock_pc a env c) hkey
  have m1 : "nautobot_secrets_providers" ∈ s1.PLUGINS := appBlock_mem_mono hmem
  have n1 : s1.PLUGINS.count "nautobot_secrets_providers" =
      c.PLUGINS.count "nautobot_secrets_providers" :=
    count_append_cases_mem (appBlock_plugins a env c) hmem
  have k2 : memKey s2.PLUGINS_CONFIG "nautobot_secrets_providers" = true :=
    dataValidationBlock_pcmem_mono k1
  have l2 : lookupKey s2.PLUGINS_CONFIG "nautobot_secrets_providers" =
      lookupKey c.PLUGINS_CONFIG "nautobot_secrets_providers" :=
    (lookup_dict_cases_guard (dataValidationBlock_pc env s1) k1).trans l1
  have m2 : "nautobot_secrets_providers" ∈ s2.PLUGINS := dataValidationBlock_mem_mono m1
  have n2 : s2.PLUGINS.count "nautobot_secrets_providers" =
      c.PLUGINS.count "nautobot_secrets_providers" :=
    (count_append_cases_ne (dataValidationBlock_plugins env s1) (by decide)).trans n1
  have k3 : memKey s3.PLUGINS_CONFIG "nautobot_secrets_providers" = true :=
    deviceOnboardingBlock1_pcmem_mono k2
  have l3 : lookupKey s3.PLUGINS_CONFIG "nautobot_secrets_providers" =
      lookupKey c.PLUGINS_CONFIG "nautobot_secrets_providers" :=
    (lookup_dict_cases_guard (deviceOnboardingBlock1_pc env s2) k2).trans l2
  have m3 : "nautobot_secrets_providers" ∈ s3.PLUGINS := deviceOnboardingBlock1_mem_mono m2
  have n3 : s3.PLUGINS.count "nautobot_secrets_providers" =
      c.PLUGINS.count "nautobot_secrets_providers" :=
    (count_append_cases_ne (deviceOnboardingBlock1_plugins env s2) (by decide)).trans n2
  have k4 : memKey s4.PLUGINS_CONFIG "nautobot_secrets_providers" = true := by
    rw [hs4, ldapBlock_pc]; exact k3
  have l4 : lookupKey s4.PLUGINS_CONFIG "nautobot_secrets_providers" =
      lookupKey c.PLUGINS_CONFIG "nautobot_secrets_providers" := by
    rw [hs4, ldapBlock_pc]; exact l3
  have m4 : "nautobot_secrets_providers" ∈ s4.PLUGINS := by
    rw [hs4, ldapBlock_plugins]; exact m3
  have n4 : s4.PLUGINS.count "nautobot_secrets_providers" =
      c.PLUGINS.count "nautobot_secrets_providers" := by
    rw [hs4, ldapBlock_plugins]; exact n3
  have k5 : memKey s5.PLUGINS_CONFIG "nautobot_secrets_providers" = true :=
    ssotBlock_pcmem_mono k4
  have l5 : lookupKey s5.PLUGINS_CONFIG "nautobot_secrets_providers" =
      lookupKey c.PLUGINS_CONFIG "nautobot_secrets_providers" :=
    (lookup_dict_cases_guard (ssotBlock_pc env s4) k4).trans l4
  have m5 : "nautobot_secrets_providers" ∈ s5.PLUGINS := ssotBlock_mem_mono m4
  have n5 : s5.PLUGINS.count "nautobot_secrets_providers" =
      c.PLUGINS.count "nautobot_secrets_providers" :=
    (count_append_cases_ne (ssotBlock_plugins env s4) (by decide)).trans n4
  have k6 : memKey s6.PLUGINS_CONFIG "nautobot_secrets_providers" = true :=
    deviceOnboardingBlock2_pcmem_mono k5
  have l6 : lookupKey s6.PLUGINS_CONFIG "nautobot_secrets_providers" =
      lookupKey c.PLUGINS_CONFIG "nautobot_secrets_providers" :=
    (lookup_dict_cases_guard (deviceOnboardingBlock2_pc env s5) k5).trans l5
  have m6 : "nautobot_secrets_providers" ∈ s6.PLUGINS := deviceOnboardingBlock2_mem_mono m5
  have n6 : s6.PLUGINS.count "nautobot_secrets_providers" =
      c.PLUGINS.count "nautobot_secrets_providers" :=
    (count_append_cases_ne (deviceOnboardingBlock2_plugins env s5) (by decide)).trans n5
  have hfix : secretsBlock env s6 = s6 := by
    apply secretsBlock_fix
    intro _
    refine ⟨m6, k6, ?_⟩
    rw [l6]
    exact hthy
  rw [hfix]
  exact ⟨l6, n6⟩

theorem applyBlocks_secrets_count_one (a : String) (env : Env)
    (hf : is_truthy (env "NAUTOBOT_SECRETS_PROVIDERS_ENABLED") = true)
    (hn : a ≠ "nautobot_secrets_providers") :
    (applyBlocks a env ⟨[], [], []⟩).PLUGINS.count "nautobot_secrets_providers" = 1 := by
  have hmem := (applyBlocks_est_secrets a env ⟨[], [], []⟩ hf).1
  unfold applyBlocks at hmem ⊢
  set s1 := appBlock a env (⟨[], [], []⟩ : Config) with hs1
  set s2 := dataValidationBlock env s1 with hs2
  set s3 := deviceOnboardingBlock1 env s2 with hs3
  set s4 := ldapBlock env s3 with hs4
  set s5 := ssotBlock env s4 with hs5
  set s6 := deviceOnboardingBlock2 env s5 with hs6
  have n1 : s1.PLUGINS.count "nautobot_secrets_providers" = 0 :=
    (count_append_cases_ne (appBlock_plugins a env ⟨[], [], []⟩)
      (fun he => hn he.symm)).trans rfl
  have n2 : s2.PLUGINS.count "nautobot_secrets_providers" = 0 :=
    (count_append_cases_ne (dataValidationBlock_plugins env s1) (by decide)).trans n1
  have n3 : s3.PLUGINS.count "nautobot_secrets_providers" = 0 :=
    (count_append_cases_ne (deviceOnboardingBlock1_plugins env s2) (by decide)).trans n2
  have n4 : s4.PLUGINS.count "nautobot_secrets_providers" = 0 := by
    rw [hs4, ldapBlock_plugins]; exact n3
  have n5 : s5.PLUGINS.count "nautobot_secrets_providers" = 0 :=
    (count_append_cases_ne (ssotBlock_plugins env s4) (by decide)).trans n4
  have n6 : s6.PLUGINS.count "nautobot_secrets_providers" = 0 :=
    (count_append_cases_ne (deviceOnboardingBlock2_plugins env s5) (by decide)).trans n5
  rcases secretsBlock_plugins env s6 with h | ⟨_, h⟩
  · exfalso
    rw [h] at hmem
    exact (List.count_eq_zero.mp n6) hmem
  · rw [h]
    simp [List.count_append, n6]

theorem applyBlocks_secrets_fresh_value (a : String) (env : Env)
    (hf : is_truthy (env "NAUTOBOT_SECRETS_PROVIDERS_ENABLED") = true)
    (hn : a ≠ "nautobot_secrets_providers") :
    lookupKey (applyBlocks a env ⟨[], [], []⟩).PLUGINS_CONFIG
      "nautobot_secrets_providers" = some (thycotic_seetings env) := by
  unfold applyBlocks
  set s1 := appBlock a env (⟨[], [], []⟩ : Config) with hs1
  set s2 := dataValidationBlock env s1 with hs2
  set s3 := deviceOnboardingBlock1 env s2 with hs3
  set s4 := ldapBlock env s3 with hs4
  set s5 := ssotBlock env s4 with hs5
  set s6 := deviceOnboardingBlock2 env s5 with hs6
  have k1 : memKey s1.PLUGINS_CONFIG "nautobot_secrets_providers" = false :=
    (memKey_dict_cases_ne (appBlock_pc a env ⟨[], [], []⟩)
      (fun he => hn he.symm)).trans rfl
  have k2 : memKey s2.PLUGINS_CONFIG "nautobot_secrets_providers" = false :=
    (memKey_dict_cases_ne (dataValidationBlock_pc env s1) (by decide)).trans k1
  have k3 : memKey s3.PLUGINS_CONFIG "nautobot_secrets_providers" = false :=
    (memKey_dict_cases_ne (deviceOnboardingBlock1_pc env s2) (by decide)).trans k2
  have k4 : memKey s4.PLUGINS_CONFIG "nautobot_secrets_providers" = false := by
    rw [hs4, ldapBlock_pc]; exact k3
  have k5 : memKey s5.PLUGINS_CONFIG "nautobot_secrets_providers" = false :=
    (memKey_dict_cases_ne (ssotBlock_pc env s4) (by decide)).trans k4
  have k6 : memKey s6.PLUGINS_CONFIG "nautobot_secrets_providers" = false :=
    (memKey_dict_cases_ne (deviceOnboardingBlock2_pc env s5) (by decide)).trans k5
  unfold secretsBlock
  rw [if_pos hf]
  unfold thycoticStep
  rw [ensurePlugin_PLUGINS_CONFIG]
  rw [if_pos (by rw [k6]; rfl), if_neg (by rw [k6]; exact Bool.false_ne_true)]
  exact lookupKey_dictSet_self _ _ _

/-! ## Claim theorems -/

/-- Claim C1: with `NAUTOBOT_DB_ENGINE` unset (and `NAUTOBOT_DB_PORT` unset)
the configured database port is `"5432"`; with the engine set to
`django.db.backends.mysql` (and the port unset) it is `"3306"`; and for every
engine value that is neither of the two recognized backend identifiers the
assembler fails at startup (the `default_db_settings` lookup raises, modelled
by `db_port env = none`) instead of silently defaulting. -/
theorem c1_db_port_selection (env : Env) :
    (env "NAUTOBOT_DB_ENGINE" = none → env "NAUTOBOT_DB_PORT" = none →
      db_port env = some "5432") ∧
    (env "NAUTOBOT_DB_ENGINE" = some "django.db.backends.mysql" →
      env "NAUTOBOT_DB_PORT" = none → db_port env = some "3306") ∧
    (∀ e, env "NAUTOBOT_DB_ENGINE" = some e →
      e ≠ "django.db.backends.postgresql" → e ≠ "django.db.backends.mysql" →
      db_port env = none) := by
  refine ⟨?_, ?_, ?_⟩
  · intro h1 h2
    unfold db_port nautobot_db_engine getenv
    rw [h1, h2]
    rfl
  · intro h1 h2
    unfold db_port nautobot_db_engine getenv
    rw [h1, h2]
    rfl
  · intro e h1 h2 h3
    unfold db_port nautobot_db_engine getenv default_db_settings
    rw [h1]
    simp [h2, h3]

/-- Witness for C1 at concrete environments: empty environment, a MySQL
environment, and an unrecognized-engine environment. -/
theorem c1_db_port_selection_witness :
    db_port (envOf []) = some "5432" ∧
    db_port (envOf [("NAUTOBOT_DB_ENGINE", "django.db.backends.mysql")]) = some "3306" ∧
    db_port (envOf [("NAUTOBOT_DB_ENGINE", "sqlite3"), ("NAUTOBOT_DB_PORT", "9999")]) = none :=
  ⟨(c1_db_port_selection (envOf [])).1 (by decide) (by decide),
   (c1_db_port_selection _).2.1 (by decide) (by decide),
   (c1_db_port_selection _).2.2 "sqlite3" (by decide) (by decide) (by decide)⟩

/-- Claim C2 counterexample: the claim also asserts that
`NAUTOBOT_ALLOWED_HOSTS="a.com, b.com"` (comma followed by a space) yields
exactly `["a.com","b.com"]`; on the code it does not — Python's
`split(" ")` with an explicit separator keeps the empty piece produced by the
two adjacent spaces. -/
theorem c2_counterexample :
    ¬ (ALLOWED_HOSTS (envOf [("NAUTOBOT_ALLOWED_HOSTS", "a.com, b.com")]) =
      ["a.com", "b.com"]) := by
  decide

/-- Claim C2, amended: the host allowlist is computed by replacing commas with
spaces and splitting on single spaces, keeping empty pieces; `"a.com,b.com"`
yields `["a.com","b.com"]`, while `"a.com, b.com"` yields
`["a.com","","b.com"]` (an empty entry where the comma-space pair stood). -/
theorem c2_allowed_hosts :
    ALLOWED_HOSTS (envOf [("NAUTOBOT_ALLOWED_HOSTS", "a.com,b.com")]) =
      ["a.com", "b.com"] ∧
    ALLOWED_HOSTS (envOf [("NAUTOBOT_ALLOWED_HOSTS", "a.com, b.com")]) =
      ["a.com", "", "b.com"] := by
  decide

/-- Claim C3: running the assembler a second time against the `PLUGINS`
registry, `PLUGINS_CONFIG` map and `LOGGING` loggers produced by a first run
with the same environment leaves all of them unchanged.  (This holds for every
feature block, including the secrets-provider block: with an unchanged
environment its nested-credential guard fails on the second run.) -/
theorem c3_assembler_idempotent (app_name : String) (env : Env) (c : Config) :
    applyBlocks app_name env (applyBlocks app_name env c) =
      applyBlocks app_name env c := by
  conv_lhs => rw [applyBlocks]
  rw [appBlock_fix app_name env _ (applyBlocks_est_app app_name env c),
    dataValidationBlock_fix env _ (applyBlocks_est_dv app_name env c),
    deviceOnboardingBlock1_fix env _ (applyBlocks_est_dob app_name env c),
    ldapBlock_fix env _ (applyBlocks_est_ldap app_name env c),
    ssotBlock_fix env _ (applyBlocks_est_ssot app_name env c),
    deviceOnboardingBlock2_fix env _ (applyBlocks_est_dob app_name env c),
    secretsBlock_fix env _ (applyBlocks_est_secrets app_name env c)]

/-- Claim C7: every boolean flag is parsed by the one truthy-string
interpreter `is_truthy` (modelled from the spec, see its doc comment): any
string whose lower-casing is `"true"`, `"yes"` or `"1"` parses true; an unset
variable, the empty string, `"false"` and `"0"` parse false; and the flag
derivations (`DEBUG`, the `*_ENABLED` toggles) all route through it. -/
theorem c7_is_truthy_table :
    (∀ s : String, str_lower s = "true" ∨ str_lower s = "yes" ∨ str_lower s = "1" →
      is_truthy (some s) = true) ∧
    is_truthy none = false ∧
    is_truthy (some "") = false ∧
    is_truthy (some "false") = false ∧
    is_truthy (some "0") = false ∧
    (∀ env : Env, DEBUG env = is_truthy (env "NAUTOBOT_DEBUG") ∧
      DJANGO_ALLOW_CIDR_ENABLED env = is_truthy (env "NAUTOBOT_DJANGO_ALLOW_CIDR_ENABLED") ∧
      DJANGO_AUTH_LDAP_ENABLED env = is_truthy (env "NAUTOBOT_DJANGO_AUTH_LDAP_ENABLED")) := by
  refine ⟨?_, rfl, by decide, by decide, by decide, fun env => ⟨rfl, rfl, rfl⟩⟩
  intro s hs
  unfold is_truthy
  rcases hs with h | h | h <;> simp [h]

/-- Witness for C7: the concrete parse table on `"true"`, `"True"`, `"1"`,
`"yes"`, `"YES"` and the unset case. -/
theorem c7_is_truthy_table_witness :
    is_truthy (some "true") = true ∧ is_truthy (some "True") = true ∧
    is_truthy (some "1") = true ∧ is_truthy (some "yes") = true ∧
    is_truthy (some "YES") = true ∧ is_truthy none = false :=
  ⟨c7_is_truthy_table.1 "true" (Or.inl (by decide)),
   c7_is_truthy_table.1 "True" (Or.inl (by decide)),
   c7_is_truthy_table.1 "1" (Or.inr (Or.inr (by decide))),
   c7_is_truthy_table.1 "yes" (Or.inr (Or.inl (by decide))),
   c7_is_truthy_table.1 "YES" (Or.inr (Or.inl (by decide))),
   c7_is_truthy_table.2.1⟩

/-- Claim C8: when LDAP is enabled with a server URI and
`NAUTOBOT_AUTH_LDAP_USER_SEARCH_DN` is set, the value is split on `";"` and
each piece is stripped of surrounding whitespace, giving one search-base entry
per piece, combined into a union; in particular `"ou=a,dc=x;ou=b,dc=x"`
produces exactly the two entries `ou=a,dc=x` and `ou=b,dc=x`. -/
theorem c8_ldap_user_search (env : Env)
    (h1 : DJANGO_AUTH_LDAP_ENABLED env = true)
    (h2 : optTruthy (AUTH_LDAP_SERVER_URI env) = true) :
    (∀ dn, env "NAUTOBOT_AUTH_LDAP_USER_SEARCH_DN" = some dn → dn ≠ "" →
      AUTH_LDAP_USER_SEARCH env =
        some (some ((str_split dn ';').map
          (fun sdn => ⟨str_strip sdn, SCOPE_SUBTREE, "(sAMAccountName=%(user)s)"⟩)))) ∧
    (env "NAUTOBOT_AUTH_LDAP_USER_SEARCH_DN" = some "ou=a,dc=x;ou=b,dc=x" →
      AUTH_LDAP_USER_SEARCH env =
        some (some [⟨"ou=a,dc=x", SCOPE_SUBTREE, "(sAMAccountName=%(user)s)"⟩,
                    ⟨"ou=b,dc=x", SCOPE_SUBTREE, "(sAMAccountName=%(user)s)"⟩])) := by
  constructor
  · intro dn hdn hne
    unfold AUTH_LDAP_USER_SEARCH
    rw [if_pos (by rw [h1, h2]; rfl), if_pos (by rw [hdn]; simpa [optTruthy] using hne)]
    unfold getenv
    rw [hdn]
    rfl
  · intro hdn
    unfold AUTH_LDAP_USER_SEARCH
    rw [if_pos (by rw [h1, h2]; rfl), if_pos (by rw [hdn]; decide)]
    unfold getenv
    rw [hdn]
    decide

/-- Witness for C8 at a concrete environment, including surrounding
whitespace that gets stripped. -/
theorem c8_ldap_user_search_witness :
    AUTH_LDAP_USER_SEARCH (envOf [("NAUTOBOT_DJANGO_AUTH_LDAP_ENABLED", "true"),
      ("NAUTOBOT_AUTH_LDAP_SERVER_URI", "ldap://dc.example.com"),
      ("NAUTOBOT_AUTH_LDAP_USER_SEARCH_DN", "ou=a,dc=x;ou=b,dc=x")]) =
      some (some [⟨"ou=a,dc=x", SCOPE_SUBTREE, "(sAMAccountName=%(user)s)"⟩,
                  ⟨"ou=b,dc=x", SCOPE_SUBTREE, "(sAMAccountName=%(user)s)"⟩]) :=
  (c8_ldap_user_search _ (by decide) (by decide)).2 (by decide)

/-- Claim C9: with the CIDR-allowlist feature enabled but
`NAUTOBOT_ALLOWED_CIDR_NETS` unset or empty, the assembler prints a warning
and proceeds with `ALLOWED_CIDR_NETS = []`; with the variable set (non-empty),
`ALLOWED_CIDR_NETS` is its value split on commas and no warning is printed. -/
theorem c9_cidr_warning (env : Env) (h : DJANGO_ALLOW_CIDR_ENABLED env = true) :
    ((env "NAUTOBOT_ALLOWED_CIDR_NETS" = none ∨
        env "NAUTOBOT_ALLOWED_CIDR_NETS" = some "") →
      cidrBlock env = ⟨[], true⟩) ∧
    (∀ v, env "NAUTOBOT_ALLOWED_CIDR_NETS" = some v → v ≠ "" →
      cidrBlock env = ⟨str_split v ',', false⟩) := by
  constructor
  · intro hv
    unfold cidrBlock
    rw [if_pos h, if_neg]
    rcases hv with hv | hv <;> rw [hv] <;> simp [optTruthy]
  · intro v hv hne
    unfold cidrBlock
    rw [if_pos h, if_pos (by rw [hv]; simpa [optTruthy] using hne)]
    unfold getenv
    rw [hv]
    rfl

/-- Witness for C9: enabled with no networks configured gives the degraded
empty state with a warning; enabled with two networks splits them. -/
theorem c9_cidr_warning_witness :
    cidrBlock (envOf [("NAUTOBOT_DJANGO_ALLOW_CIDR_ENABLED", "true")]) = ⟨[], true⟩ ∧
    cidrBlock (envOf [("NAUTOBOT_DJANGO_ALLOW_CIDR_ENABLED", "true"),
      ("NAUTOBOT_ALLOWED_CIDR_NETS", "10.0.0.0/8,192.168.0.0/16")]) =
      ⟨["10.0.0.0/8", "192.168.0.0/16"], false⟩ :=
  ⟨(c9_cidr_warning _ (by decide)).1 (Or.inl (by decide)),
   ((c9_cidr_warning _ (by decide)).2 "10.0.0.0/8,192.168.0.0/16"
     (by decide) (by decide)).trans (by decide)⟩

/-- Claim C4 counterexample: running the secrets-provider block twice with
different `SECRET_SERVER_BASE_URL` values does NOT make the second run's
values win — once the first run has installed the `"thycotic"` key, the guard
on line 456 blocks re-entry, so the nested credential configuration still
holds the FIRST run's values (which differ from the second run's). -/
theorem c4_counterexample :
    lookupKey (applyBlocks "my_app"
        (envOf [("NAUTOBOT_SECRETS_PROVIDERS_ENABLED", "true"),
                ("SECRET_SERVER_BASE_URL", "https://two.example")])
        (applyBlocks "my_app"
          (envOf [("NAUTOBOT_SECRETS_PROVIDERS_ENABLED", "true"),
                  ("SECRET_SERVER_BASE_URL", "https://one.example")])
          ⟨[], [], []⟩)).PLUGINS_CONFIG "nautobot_secrets_providers" =
      some (thycotic_seetings
        (envOf [("NAUTOBOT_SECRETS_PROVIDERS_ENABLED", "true"),
                ("SECRET_SERVER_BASE_URL", "https://one.example")])) ∧
    thycotic_seetings
        (envOf [("NAUTOBOT_SECRETS_PROVIDERS_ENABLED", "true"),
                ("SECRET_SERVER_BASE_URL", "https://one.example")]) ≠
      thycotic_seetings
        (envOf [("NAUTOBOT_SECRETS_PROVIDERS_ENABLED", "true"),
                ("SECRET_SERVER_BASE_URL", "https://two.example")]) := by
  decide

/-- Claim C4, amended: when the secrets-provider block is enabled and run
twice with different `SECRET_SERVER_*` environments, the FIRST run's values
persist in the nested `"thycotic"` credential configuration (the guard blocks
the second write), and `"nautobot_secrets_providers"` appears exactly once in
the `PLUGINS` registry. -/
theorem c4_secrets_first_run_wins (app_name : String) (env1 env2 : Env)
    (h1 : is_truthy (env1 "NAUTOBOT_SECRETS_PROVIDERS_ENABLED") = true)
    (hn : app_name ≠ "nautobot_secrets_providers") :
    lookupKey (applyBlocks app_name env2 (applyBlocks app_name env1
        ⟨[], [], []⟩)).PLUGINS_CONFIG "nautobot_secrets_providers" =
      some (thycotic_seetings env1) ∧
    (applyBlocks app_name env2 (applyBlocks app_name env1
        ⟨[], [], []⟩)).PLUGINS.count "nautobot_secrets_providers" = 1 := by
  obtain ⟨hmem, hkey, hthy⟩ := applyBlocks_est_secrets app_name env1 ⟨[], [], []⟩ h1
  obtain ⟨hl, hc⟩ := applyBlocks_preserves_secrets app_name env2 _ hkey hthy hmem
  constructor
  · rw [hl]
    exact applyBlocks_secrets_fresh_value app_name env1 h1 hn
  · rw [hc]
    exact applyBlocks_secrets_count_one app_name env1 h1 hn

/-- Witness for C4 (amended) at two concrete environments that differ in
`SECRET_SERVER_BASE_URL`. -/
theorem c4_secrets_first_run_wins_witness :
    lookupKey (applyBlocks "my_app"
        (envOf [("NAUTOBOT_SECRETS_PROVIDERS_ENABLED", "true"),
                ("SECRET_SERVER_BASE_URL", "https://b.example")])
        (applyBlocks "my_app"
          (envOf [("NAUTOBOT_SECRETS_PROVIDERS_ENABLED", "true"),
                  ("SECRET_SERVER_BASE_URL", "https://a.example")])
          ⟨[], [], []⟩)).PLUGINS_CONFIG "nautobot_secrets_providers" =
      some (thycotic_seetings
        (envOf [("NAUTOBOT_SECRETS_PROVIDERS_ENABLED", "true"),
                ("SECRET_SERVER_BASE_URL", "https://a.example")])) ∧
    (applyBlocks "my_app"
        (envOf [("NAUTOBOT_SECRETS_PROVIDERS_ENABLED", "true"),
                ("SECRET_SERVER_BASE_URL", "https://b.example")])
        (applyBlocks "my_app"
          (envOf [("NAUTOBOT_SECRETS_PROVIDERS_ENABLED", "true"),
                  ("SECRET_SERVER_BASE_URL", "https://a.example")])
          ⟨[], [], []⟩)).PLUGINS.count "nautobot_secrets_providers" = 1 :=
  c4_secrets_first_run_wins "my_app" _ _ (by decide) (by decide)

/-- Claim C5 counterexample: the logger writes are NOT all guarded by a
name-not-already-present check — the LDAP block updates the
`"django_auth_ldap"` logger unconditionally, overwriting a pre-existing
configuration for that name. -/
theorem c5_counterexample :
    lookupKey (applyBlocks "my_app"
        (envOf [("NAUTOBOT_DJANGO_AUTH_LDAP_ENABLED", "true"),
                ("NAUTOBOT_AUTH_LDAP_SERVER_URI", "ldap://dc.example.com")])
        ⟨[], [], [("django_auth_ldap", ⟨["file_handler"], "WARNING"⟩)]⟩).loggers
      "django_auth_ldap" = some ⟨["normal_console"], "INFO"⟩ ∧
    (⟨["file_handler"], "WARNING"⟩ : LoggerCfg) ≠ ⟨["normal_console"], "INFO"⟩ := by
  decide

/-- Claim C5, amended: every logger name other than `"django_auth_ldap"` that
is already present in the loggers mapping before the feature blocks run keeps
its configuration — those writes are guarded; the `"django_auth_ldap"` entry
alone is written unconditionally whenever the LDAP block runs. -/
theorem c5_loggers_preserved (app_name : String) (env : Env) (c : Config) (k : String)
    (hk : k ≠ "django_auth_ldap") (hmem : memKey c.loggers k = true) :
    lookupKey (applyBlocks app_name env c).loggers k = lookupKey c.loggers k := by
  unfold applyBlocks
  set s1 := appBlock app_name env c with hs1
  set s2 := dataValidationBlock env s1 with hs2
  set s3 := deviceOnboardingBlock1 env s2 with hs3
  set s4 := ldapBlock env s3 with hs4
  set s5 := ssotBlock env s4 with hs5
  set s6 := deviceOnboardingBlock2 env s5 with hs6
  have l1 : lookupKey s1.loggers k = lookupKey c.loggers k :=
    lookup_dict_cases_guard (appBlock_loggers app_name env c) hmem
  have l2 : lookupKey s2.loggers k = lookupKey c.loggers k := by
    rw [hs2, dataValidationBlock_loggers]; exact l1
  have l3 : lookupKey s3.loggers k = lookupKey c.loggers k := by
    rw [hs3, deviceOnboardingBlock1_loggers]; exact l2
  have l4 : lookupKey s4.loggers k = lookupKey c.loggers k := by
    rcases ldapBlock_loggers env s3 with h | h
    · rw [hs4, h]; exact l3
    · rw [hs4, h, lookupKey_dictSet_ne _ _ _ _ hk]; exact l3
  rw [secretsBlock_loggers, hs6, deviceOnboardingBlock2_loggers, hs5, ssotBlock_loggers]
  exact l4

/-- Witness for C5 (amended): the pre-existing `"django"` logger keeps its
configuration across a full run with LDAP enabled. -/
theorem c5_loggers_preserved_witness :
    lookupKey (applyBlocks "my_app"
        (envOf [("NAUTOBOT_DJANGO_AUTH_LDAP_ENABLED", "true"),
                ("NAUTOBOT_AUTH_LDAP_SERVER_URI", "ldap://dc.example.com")])
        ⟨[], [], [("django", ⟨["normal_console"], "INFO"⟩)]⟩).loggers "django" =
      lookupKey [("django", (⟨["normal_console"], "INFO"⟩ : LoggerCfg))] "django" :=
  c5_loggers_preserved "my_app" _ _ "django" (by decide) (by decide)

/-- Claim C6 (the code side): the Data Validation Engine block guards its
`PLUGINS.append` with a membership test on `PLUGINS_CONFIG` instead of
`PLUGINS` (line 230), so starting from a registry that already lists the
plugin (each name unique) but has no configuration entry for it, the enabled
block appends a duplicate: the name ends up twice in `PLUGINS`. -/
theorem c6_duplicate_append :
    (applyBlocks "my_app" (envOf [("NAUTOBOT_DATA_VALIDATION_ENGINE_ENABLED", "true")])
        ⟨["nautobot_data_validation_engine"], [], []⟩).PLUGINS.count
      "nautobot_data_validation_engine" = 2 := by
  decide

/-- Claim C10: with `NAUTOBOT_DEVICE_ONBOARDING_ENABLED` truthy and `PLUGINS`
and `PLUGINS_CONFIG` starting empty, the two device-onboarding blocks resolve
in favor of the first: `"nautobot_device_onboarding"` appears exactly once in
`PLUGINS`, its configuration is exactly the first block's three options
(`default_device_role_color`, `default_device_role`,
`skip_device_type_on_update`), and the second block's additional
`skip_manufacturer_on_update` key is never set. -/
theorem c10_device_onboarding_first_block_wins (app_name : String) (env : Env)
    (hf : is_truthy (env "NAUTOBOT_DEVICE_ONBOARDING_ENABLED") = true)
    (hn : app_name ≠ "nautobot_device_onboarding") :
    (applyBlocks app_name env ⟨[], [], []⟩).PLUGINS.count
      "nautobot_device_onboarding" = 1 ∧
    lookupKey (applyBlocks app_name env ⟨[], [], []⟩).PLUGINS_CONFIG
        "nautobot_device_onboarding" =
      some [("default_device_role_color", Val.str "0000FF"),
            ("default_device_role", Val.str "edge-switch"),
            ("skip_device_type_on_update", Val.bool true)] ∧
    memKey ((lookupKey (applyBlocks app_name env ⟨[], [], []⟩).PLUGINS_CONFIG
      "nautobot_device_onboarding").getD []) "skip_manufacturer_on_update" = false := by
  unfold applyBlocks
  set s1 := appBlock app_name env (⟨[], [], []⟩ : Config) with hs1
  set s2 := dataValidationBlock env s1 with hs2
  set s3 := deviceOnboardingBlock1 env s2 with hs3
  set s4 := ldapBlock env s3 with hs4
  set s5 := ssotBlock env s4 with hs5
  set s6 := deviceOnboardingBlock2 env s5 with hs6
  have hne : "nautobot_device_onboarding" ≠ app_name := fun he => hn he.symm
  have n1 : s1.PLUGINS.count "nautobot_device_onboarding" = 0 :=
    (count_append_cases_ne (appBlock_plugins app_name env ⟨[], [], []⟩) hne).trans rfl
  have k1 : memKey s1.PLUGINS_CONFIG "nautobot_device_onboarding" = false :=
    (memKey_dict_cases_ne (appBlock_pc app_name env ⟨[], [], []⟩) hne).trans rfl
  have n2 : s2.PLUGINS.count "nautobot_device_onboarding" = 0 :=
    (count_append_cases_ne (dataValidationBlock_plugins env s1) (by decide)).trans n1
  have k2 : memKey s2.PLUGINS_CONFIG "nautobot_device_onboarding" = false :=
    (memKey_dict_cases_ne (dataValidationBlock_pc env s1) (by decide)).trans k1
  have hnm2 : "nautobot_device_onboarding" ∉ s2.PLUGINS := List.count_eq_zero.mp n2
  have hp3 : s3.PLUGINS = s2.PLUGINS ++ ["nautobot_device_onboarding"] := by
    rw [hs3]
    unfold deviceOnboardingBlock1
    rw [if_pos hf, ensurePluginConfig_PLUGINS]
    exact ensurePlugin_of_not_mem _ s2 hnm2
  have n3 : s3.PLUGINS.count "nautobot_device_onboarding" = 1 := by
    rw [hp3]
    simp [List.count_append, n2]
  have m3 : "nautobot_device_onboarding" ∈ s3.PLUGINS := by
    rw [hp3]; simp
  have hc3 : s3.PLUGINS_CONFIG =
      dictSet s2.PLUGINS_CONFIG "nautobot_device_onboarding" deviceOnboardingCfg1 := by
    rw [hs3]
    unfold deviceOnboardingBlock1
    rw [if_pos hf]
    have h := ensurePluginConfig_of_absent "nautobot_device_onboarding" deviceOnboardingCfg1
      (ensurePlugin "nautobot_device_onboarding" s2)
      (by rw [ensurePlugin_PLUGINS_CONFIG]; exact k2)
    rw [h, ensurePlugin_PLUGINS_CONFIG]
  have l3 : lookupKey s3.PLUGINS_CONFIG "nautobot_device_onboarding" =
      some deviceOnboardingCfg1 := by
    rw [hc3]
    exact lookupKey_dictSet_self _ _ _
  have k3 : memKey s3.PLUGINS_CONFIG "nautobot_device_onboarding" = true := by
    rw [hc3]
    exact memKey_dictSet_self _ _ _
  have n4 : s4.PLUGINS.count "nautobot_device_onboarding" = 1 := by
    rw [hs4, ldapBlock_plugins]; exact n3
  have m4 : "nautobot_device_onboarding" ∈ s4.PLUGINS := by
    rw [hs4, ldapBlock_plugins]; exact m3
  have l4 : lookupKey s4.PLUGINS_CONFIG "nautobot_device_onboarding" =
      some deviceOnboardingCfg1 := by
    rw [hs4, ldapBlock_pc]; exact l3
  have k4 : memKey s4.PLUGINS_CONFIG "nautobot_device_onboarding" = true := by
    rw [hs4, ldapBlock_pc]; exact k3
  have n5 : s5.PLUGINS.count "nautobot_device_onboarding" = 1 :=
    (count_append_cases_ne (ssotBlock_plugins env s4) (by decide)).trans n4
  have m5 : "nautobot_device_onboarding" ∈ s5.PLUGINS := ssotBlock_mem_mono m4
  have l5 : lookupKey s5.PLUGINS_CONFIG "nautobot_device_onboarding" =
      some deviceOnboardingCfg1 :=
    (lookup_dict_cases_guard (ssotBlock_pc env s4) k4).trans l4
  have k5 : memKey s5.PLUGINS_CONFIG "nautobot_device_onboarding" = true :=
    ssotBlock_pcmem_mono k4
  have hfix6 : s6 = s5 := by
    rw [hs6]
    exact deviceOnboardingBlock2_fix env s5 (fun _ => ⟨m5, k5⟩)
  have lfin : lookupKey (secretsBlock env s6).PLUGINS_CONFIG
      "nautobot_device_onboarding" = some deviceOnboardingCfg1 := by
    rcases secretsBlock_pc env s6 with h | ⟨d, _, h⟩
    · rw [h, hfix6]; exact l5
    · rw [h, lookupKey_dictSet_ne _ _ _ _ (by decide), hfix6]; exact l5
  refine ⟨?_, ?_, ?_⟩
  · rw [(count_append_cases_ne (secretsBlock_plugins env s6) (by decide) :
      (secretsBlock env s6).PLUGINS.count "nautobot_device_onboarding" = _), hfix6]
    exact n5
  · exact lfin
  · rw [lfin]
    decide

/-- Witness for C10 at a concrete environment with only the device-onboarding
flag set. -/
theorem c10_device_onboarding_first_block_wins_witness :
    (applyBlocks "my_app" (envOf [("NAUTOBOT_DEVICE_ONBOARDING_ENABLED", "true")])
        ⟨[], [], []⟩).PLUGINS.count "nautobot_device_onboarding" = 1 ∧
    lookupKey (applyBlocks "my_app"
        (envOf [("NAUTOBOT_DEVICE_ONBOARDING_ENABLED", "true")])
        ⟨[], [], []⟩).PLUGINS_CONFIG "nautobot_device_onboarding" =
      some [("default_device_role_color", Val.str "0000FF"),
            ("default_device_role", Val.str "edge-switch"),
            ("skip_device_type_on_update", Val.bool true)] ∧
    memKey ((lookupKey (applyBlocks "my_app"
        (envOf [("NAUTOBOT_DEVICE_ONBOARDING_ENABLED", "true")])
        ⟨[], [], []⟩).PLUGINS_CONFIG
      "nautobot_device_onboarding").getD []) "skip_manufacturer_on_update" = false :=
  c10_device_onboarding_first_block_wins "my_app" _ (by decide) (by decide)

end NautobotConfig
